import Mathlib

/-!
# chaos-scan: verification of the analysis & pruning pipeline

Shallow embedding of the analysis core of the `chaos-scan` repository
(entity canonicalization, recurrence classification, detectors, impact
calculators, pruning engine, scan-mode selection) together with theorems
settling the claims C1–C10.

Modelling conventions, used throughout:

* JavaScript numbers are modelled as exact rationals (`ℚ`).  Every division
  in the embedded code except the ones inside `detectAmountDrift` is guarded
  by the source (non-zero medians / non-empty lists), so exact rational
  arithmetic agrees with the source's float arithmetic on the guarded
  branches and no verified property depends on float rounding.
  `detectAmountDrift` contains unguarded divisions, so its internal numerics
  are modelled with `JSNum`, a model of IEEE special values (NaN, ±∞).
* ISO date strings (`YYYY-MM-DD`): `new Date(s).getTime()` is the UTC epoch
  millisecond value, an exact multiple of 86400000, so all of the source's
  day computations (`Math.ceil(|Δms|/86400000)`, `Math.round(...)`) are
  exact integer day differences.  `dateValue` is therefore embedded as the
  epoch *day* (`Option Int`).
* `Array.prototype.sort` with a numeric comparator is stable (ES2019); it is
  embedded as a stable insertion sort `sSort`.
* JavaScript `Map` iterates in key-insertion order; grouping maps are
  embedded as association lists built in insertion order (`groupByKey`).
* Purely presentational string fields produced with `toFixed` /
  `Intl.NumberFormat` (`title`, `evidenceSummary`) are not modelled; the
  `rationale` array, which claims do inspect, is modelled as a list of
  tagged entries (`Rationale`), one constructor per `rationale.push` site,
  carrying the interpolated values.
* The entity canonicalizer is a chain of JavaScript regex replacements; it
  is embedded via a small backtracking regex engine (`RE`, `reMatch`) with
  JavaScript `String.replace` semantics, and each source pattern is
  transliterated 1:1 into an `RE` value (quoted in comments).
-/

/- Batteries marks the `Rat` arithmetic operations `@[irreducible]`, which
blocks `decide`-style evaluation of the embedded (exact-rational) pipeline
on concrete inputs; restore default reducibility for them.  (The kernel
ignores reducibility attributes, so proofs are unaffected.) -/
set_option allowUnsafeReducibility true

set_option maxRecDepth 8000

attribute [semireducible] Rat.mul Rat.add Rat.sub Rat.inv Rat.div Rat.blt

namespace ChaosScan

/-! ## Stable sorting (JS `Array.prototype.sort`, stable, comparator-based)

`before y x = true` means `y` must be strictly before `x` (comparator `< 0`).
`sInsert` places `x` after every already-placed element that is strictly
before it and before the first element that is not, which is exactly the
stable order produced by a stable comparator sort. -/

def sInsert {α : Type} (before : α → α → Bool) (x : α) : List α → List α
  | [] => [x]
  | y :: ys => if before y x then y :: sInsert before x ys else x :: y :: ys

def sSort {α : Type} (before : α → α → Bool) : List α → List α
  | [] => []
  | x :: xs => sInsert before x (sSort before xs)

/-! ## Insertion-ordered grouping (JS `Map` built with push-per-key) -/

/-- The duplicate-charge detectors build their `Map` key as the template
string `` `${entity}|${date}|${amount}` ``, which is injective in the
triple; keys are therefore embedded as the tuples themselves, so grouping
is polymorphic in the key type. -/
def addToGroup {κ α : Type} [BEq κ] (k : κ) (x : α) :
    List (κ × List α) → List (κ × List α)
  | [] => [(k, [x])]
  | (k', ys) :: rest =>
      if k' == k then (k', ys ++ [x]) :: rest else (k', ys) :: addToGroup k x rest

def groupByKey {κ α : Type} [BEq κ] (key : α → κ) (xs : List α) : List (κ × List α) :=
  xs.foldl (fun acc x => addToGroup (key x) x acc) []

/-- `Map.get` on an insertion-ordered association list. -/
def alistGet {κ α : Type} [BEq κ] (m : List (κ × α)) (k : κ) : Option α :=
  (m.find? (fun p => p.1 == k)).map (fun p => p.2)

/-! ## JS string helpers -/

/-- Whitespace characters matched by JavaScript `\s` (the ASCII ones; the
source strings contain no exotic Unicode whitespace). -/
def wsChars : List Char := [' ', '\t', '\n', '\r', '\x0b', '\x0c']

def isWS (c : Char) : Bool := wsChars.contains c

/-- JavaScript `String.prototype.trim`. -/
def jsTrim (s : String) : String :=
  ⟨((s.data.dropWhile isWS).reverse.dropWhile isWS).reverse⟩

/-- JavaScript `String.prototype.toUpperCase` (ASCII; non-ASCII letters are
left unchanged, which is harmless here because the canonicalizer deletes
every non-`[A-Za-z0-9_]` character right afterwards). -/
def jsUpper (s : String) : String := ⟨s.data.map Char.toUpper⟩

def listStartsWith : List Char → List Char → Bool
  | _, [] => true
  | [], _ :: _ => false
  | c :: cs, p :: ps => c = p && listStartsWith cs ps

/-- JavaScript `String.prototype.startsWith`. -/
def jsStartsWith (s pat : String) : Bool := listStartsWith s.data pat.data

def listContainsSub : List Char → List Char → Bool
  | hay, pat =>
    if listStartsWith hay pat then true else
    match hay with
    | [] => false
    | _ :: rest => listContainsSub rest pat

/-- JavaScript `String.prototype.includes`. -/
def jsIncludes (s pat : String) : Bool := listContainsSub s.data pat.data

def splitCharAux (c : Char) : List Char → List Char → List (List Char)
  | [], acc => [acc.reverse]
  | x :: xs, acc =>
      if x = c then acc.reverse :: splitCharAux c xs []
      else splitCharAux c xs (x :: acc)

/-- JavaScript `String.prototype.split(" ")`. -/
def jsSplitSpace (s : String) : List String :=
  (splitCharAux ' ' s.data []).map (fun l => ⟨l⟩)

/-- JavaScript falsy-aware `a || b` on a nullable string: the empty string is
falsy. -/
def strOrElse (a : Option String) (b : String) : String :=
  match a with
  | some s => if s = "" then b else s
  | none => b

/-! ## A JavaScript-regex engine (specialised to the features the source uses)

Supported: literal characters, character classes (ranges, negation),
sequencing, alternation (leftmost preference), greedy `*` (and `+`, `?`,
`{m,n}`, `{m,}` via desugaring), the anchors `^` `$`, the word boundary
`\b`, and (negative) lookahead.  Matching uses full backtracking in the
standard order (greedy, leftmost alternative first), which is exactly the
order in which a JavaScript regex finds its match.  `reMatch` carries fuel
that only bounds `*`-iterations; every `*`-iteration must consume at least
one character, so `(length + 2) * (size + 2)` fuel is never exhausted. -/

inductive RE : Type where
  | eps : RE
  | ch (c : Char) : RE
  | cls (neg : Bool) (ranges : List (Char × Char)) : RE
  | seq (a b : RE) : RE
  | alt (a b : RE) : RE
  | star (a : RE) : RE
  | wordB : RE
  | bol : RE
  | eol : RE
  | look (neg : Bool) (a : RE) : RE

def inRanges (c : Char) : List (Char × Char) → Bool
  | [] => false
  | (lo, hi) :: rest => (decide (lo ≤ c) && decide (c ≤ hi)) || inRanges c rest

/-- JavaScript `\w`: `[A-Za-z0-9_]`. -/
def isWordChar (c : Char) : Bool :=
  inRanges c [('A', 'Z'), ('a', 'z'), ('0', '9'), ('_', '_')]

def reSize : RE → Nat
  | .eps => 1
  | .ch _ => 1
  | .cls _ _ => 1
  | .seq a b => reSize a + reSize b + 1
  | .alt a b => reSize a + reSize b + 1
  | .star a => reSize a + 1
  | .wordB => 1
  | .bol => 1
  | .eol => 1
  | .look _ a => reSize a + 1

/-- Backtracking matcher in CPS.  `prev` is the character just before the
current position (for `\b` and `^`), `k` receives the remainder of the
input after the candidate match; the first continuation success (in
backtracking order) wins, like a JavaScript regex.

The recursion is structural on the fuel, which therefore bounds the depth
of the regex walk (one unit per regex node entered, one per `*`
iteration); continuations restart from the fuel captured at their creation.
A `*` iteration only recurses after consuming at least one character, so a
walk's depth never exceeds `(|s| + 1) * reSize r`, and `reFuel` below is
always sufficient — the `0` case is unreachable from `reReplace`/`reTest`. -/
def reMatch : Nat → RE → Option Char → List Char →
    (Option Char → List Char → Option (List Char)) → Option (List Char)
  | 0, _, _, _, _ => none
  | f + 1, r, prev, s, k =>
    match r with
    | .eps => k prev s
    | .ch c =>
        match s with
        | [] => none
        | x :: xs => if x = c then k (some x) xs else none
    | .cls neg ranges =>
        match s with
        | [] => none
        | x :: xs => if inRanges x ranges ≠ neg then k (some x) xs else none
    | .seq a b => reMatch f a prev s (fun p' s' => reMatch f b p' s' k)
    | .alt a b =>
        match reMatch f a prev s k with
        | some res => some res
        | none => reMatch f b prev s k
    | .star a =>
        match reMatch f a prev s (fun p' s' =>
            if s'.length < s.length then reMatch f (.star a) p' s' k else none) with
        | some res => some res
        | none => k prev s
    | .wordB =>
        let wPrev := match prev with | none => false | some c => isWordChar c
        let wNext := match s with | [] => false | c :: _ => isWordChar c
        if wPrev ≠ wNext then k prev s else none
    | .bol => if prev.isNone then k prev s else none
    | .eol => if s.isEmpty then k prev s else none
    | .look neg a =>
        match reMatch f a prev s (fun _ _ => some []) with
        | some _ => if neg then none else k prev s
        | none => if neg then k prev s else none

/-- Fuel exceeding every reachable recursion depth of `reMatch r` on `s`. -/
def reFuel (r : RE) (s : List Char) : Nat := (s.length + 2) * (reSize r + 2)

/-- JavaScript `String.replace` scanning: at each position try to match; on a
match emit the replacement and continue after it (only once when the regex
has no `g` flag).  A zero-length match advances by one character, as in JS. -/
def scanRepl (f : Nat) (r : RE) (prev : Option Char) (s : List Char)
    (repl : List Char) (global : Bool) : List Char :=
  match f with
  | 0 => s
  | f' + 1 =>
    match reMatch (reFuel r s) r prev s (fun _ rest => some rest) with
    | some rest =>
        let consumed := s.length - rest.length
        if consumed = 0 then
          match s with
          | [] => repl
          | c :: cs =>
              repl ++ (if global then c :: scanRepl f' r (some c) cs repl global
                       else c :: cs)
        else
          repl ++ (if global then
                     scanRepl f' r ((s.take consumed).getLast?) rest repl global
                   else rest)
    | none =>
      match s with
      | [] => []
      | c :: cs => c :: scanRepl f' r (some c) cs repl global

/-- JavaScript `s.replace(r, repl)`; `global` is the `g` flag. -/
def reReplace (r : RE) (s : String) (repl : String) (global : Bool) : String :=
  ⟨scanRepl (s.length + 1) r none s.data repl.data global⟩

def scanTest (f : Nat) (r : RE) (prev : Option Char) (s : List Char) : Bool :=
  match reMatch (reFuel r s) r prev s (fun _ rest => some rest) with
  | some _ => true
  | none =>
    match f, s with
    | 0, _ => false
    | _, [] => false
    | f' + 1, c :: cs => scanTest f' r (some c) cs

/-- JavaScript `r.test(s)`. -/
def reTest (r : RE) (s : String) : Bool := scanTest s.length r none s.data

/-! ### Regex smart constructors mirroring the source pattern syntax -/

def reStr (t : String) : RE := t.data.foldr (fun c acc => .seq (.ch c) acc) .eps

def reAlts : List RE → RE
  | [] => .cls false []
  | [r] => r
  | r :: rs => .alt r (reAlts rs)

def reRepExact (r : RE) : Nat → RE
  | 0 => .eps
  | n + 1 => .seq r (reRepExact r n)

/-- Greedy `{0,n}` (prefers more repetitions, like JS). -/
def reOptUpTo (r : RE) : Nat → RE
  | 0 => .eps
  | n + 1 => .alt (.seq r (reOptUpTo r n)) .eps

/-- `r{m,n}` (greedy). -/
def reRep (r : RE) (m n : Nat) : RE := .seq (reRepExact r m) (reOptUpTo r (n - m))

/-- `r{m,}` (greedy). -/
def reRepMin (r : RE) (m : Nat) : RE := .seq (reRepExact r m) (.star r)

/-- `r?` (greedy). -/
def reOpt (r : RE) : RE := .alt r .eps

/-- `r+` (greedy). -/
def rePlus (r : RE) : RE := .seq r (.star r)

/-- `\d`. -/
def reD : RE := .cls false [('0', '9')]

/-- `\s`. -/
def reS : RE := .cls false (wsChars.map (fun c => (c, c)))

/-- `\S`. -/
def reNotS : RE := .cls true (wsChars.map (fun c => (c, c)))

/-- `[^\w\s]`. -/
def reNotWordWS : RE :=
  .cls true ([('A', 'Z'), ('a', 'z'), ('0', '9'), ('_', '_')] ++
    wsChars.map (fun c => (c, c)))

/-- `\s+` (used by the ubiquitous `replace(/\s+/g, " ")`). -/
def wsPlus : RE := rePlus reS

/-! ## Entity canonicalizer (`canonicalizeEntity.ts`) -/

def ENTITY_SUFFIXES : List String :=
  ["INC", "INCORPORATED", "LLC", "LTD", "LIMITED", "CO", "CORP", "CORPORATION",
   "COMPANY", "THE", "NA", "LP", "LLP", "PC", "PLLC", "PA", "INTL",
   "INTERNATIONAL", "USA", "US"]

def TRAILING_NOISE_WORDS : List String := ["LOC", "BRANCH", "LOCATION"]

def TRANSACTION_TOKENS : List String :=
  ["POS", "DEBIT", "CREDIT", "ACH", "ONLINE", "PURCHASE", "PAYMENT", "TRANSFER",
   "ATM", "CARD", "CHECK", "CHK", "REF", "VISA", "MASTERCARD", "MC", "AMEX",
   "DISCOVER", "CHECKCARD", "RECURRING", "AUTOPAY", "BILLPAY", "WIRE", "MOBILE",
   "WEB", "WITHDRAWAL", "DEPOSIT", "DIRECT", "DEP", "WD", "DR", "CR", "DDA",
   "MEMO", "EFT", "ELECTRONIC", "PREAUTHORIZED", "PREAUTH", "AUTH", "AUTHORIZED",
   "PENDING", "POSTED", "CLEARED", "TRANSACTION", "TXN", "EXTERNAL", "INTERNAL",
   "SQ", "PP", "TST", "ORIG", "ORIGINATOR"]

def PAYMENT_SERVICE_PREFIXES : List String := ["PAYPAL", "VENMO", "ZELLE"]

def STATE_CODES : List String :=
  ["AL", "AK", "AZ", "AR", "CA", "CO", "CT", "DE", "FL", "GA", "HI", "ID", "IL",
   "IN", "IA", "KS", "KY", "LA", "ME", "MD", "MA", "MI", "MN", "MS", "MO", "MT",
   "NE", "NV", "NH", "NJ", "NM", "NY", "NC", "ND", "OH", "OK", "OR", "PA", "RI",
   "SC", "SD", "TN", "TX", "UT", "VT", "VA", "WA", "WV", "WI", "WY", "DC"]

/-- `[-\/]` with the two characters slash and dash (source order `\/` then `-`). -/
def sepSlashDash : RE := .cls false [('/', '/'), ('-', '-')]

/-- `/\b\d{1,2}[-\/]\d{1,2}(?:[-\/]\d{2,4})?\b/g  (separator class written [-\/] here; the source writes the slash first)` -/
def earlyDate1 : RE :=
  .seq .wordB (.seq (reRep reD 1 2) (.seq sepSlashDash (.seq (reRep reD 1 2)
    (.seq (reOpt (.seq sepSlashDash (reRep reD 2 4))) .wordB))))

/-- `/\b\d{4}[-\/]\d{1,2}[-\/]\d{1,2}\b/g  (same separator class)` -/
def earlyDate2 : RE :=
  .seq .wordB (.seq (reRepExact reD 4) (.seq sepSlashDash (.seq (reRep reD 1 2)
    (.seq sepSlashDash (.seq (reRep reD 1 2) .wordB)))))

def EARLY_DATE_PATTERNS : List RE := [earlyDate1, earlyDate2]

/-- `/'S\b/g` (possessive, applied after uppercasing). -/
def possessiveS : RE := .seq (.ch '\'') (.seq (.ch 'S') .wordB)

/-- `/\bBILL\s+PAY\b/gi` -/
def billPayRE : RE :=
  .seq .wordB (.seq (reStr "BILL") (.seq wsPlus (.seq (reStr "PAY") .wordB)))

/-- ``new RegExp(`\\b${token}\\b`, "gi")`` -/
def wordRE (t : String) : RE := .seq .wordB (.seq (reStr t) .wordB)

/-- ``new RegExp(`^${service}\\s+(?=\\S)`, "gi")`` -/
def p2pRE (svc : String) : RE :=
  .seq .bol (.seq (reStr svc) (.seq wsPlus (.look false reNotS)))

/-- ``new RegExp(`\\b${suffix}\\s*$`, "gi")`` -/
def suffixEndRE (suf : String) : RE :=
  .seq .wordB (.seq (reStr suf) (.seq (.star reS) .eol))

/-- ``new RegExp(`\\b${suffix}\\b(?=\\s+(${ENTITY_SUFFIXES.join("|")})\\b)`, "gi")`` -/
def suffixMidRE (suf : String) : RE :=
  .seq .wordB (.seq (reStr suf) (.seq .wordB (.look false
    (.seq wsPlus (.seq (reAlts (ENTITY_SUFFIXES.map reStr)) .wordB)))))

/-- The `LOCATION_PATTERNS` array, in order, paired with each regex's `g`
flag (`/\b\d{3,4}$/` is the only one without it):
`/\bSTORE\s*#\d+/gi`, `/\bSTORE\s+\d+/gi`, `/\bLOC\s*#?\d+/gi`,
`/\bBRANCH\s*#?\d+/gi`, `/\bLOCATION\s*#?\d+/gi`, `/\b#\d+\b/g`, `/\*\d+/g`,
`/\b[A-Z]{2}\s+\d{4,}/g`, `/\b\d{5,}\b/g`, `/\b\d{3,4}$/`. -/
def LOCATION_PATTERNS : List (RE × Bool) :=
  [(.seq .wordB (.seq (reStr "STORE") (.seq (.star reS) (.seq (.ch '#') (rePlus reD)))), true),
   (.seq .wordB (.seq (reStr "STORE") (.seq wsPlus (rePlus reD))), true),
   (.seq .wordB (.seq (reStr "LOC") (.seq (.star reS) (.seq (reOpt (.ch '#')) (rePlus reD)))), true),
   (.seq .wordB (.seq (reStr "BRANCH") (.seq (.star reS) (.seq (reOpt (.ch '#')) (rePlus reD)))), true),
   (.seq .wordB (.seq (reStr "LOCATION") (.seq (.star reS) (.seq (reOpt (.ch '#')) (rePlus reD)))), true),
   (.seq .wordB (.seq (.ch '#') (.seq (rePlus reD) .wordB)), true),
   (.seq (.ch '*') (rePlus reD), true),
   (.seq .wordB (.seq (reRepExact (.cls false [('A', 'Z')]) 2) (.seq wsPlus (reRepMin reD 4))), true),
   (.seq .wordB (.seq (reRepMin reD 5) .wordB), true),
   (.seq .wordB (.seq (reRep reD 3 4) .eol), false)]

/-- The `DATE_PATTERNS` array, in order:
`/\b\d{6,8}\b/g`, `/\b0[1-9]\d{2}\b/g`, `/\b1[0-2]\d{2}\b/g`,
`/\b\d{1,2}\s+\d{1,2}\b(?!\s+\d)/g`. -/
def DATE_PATTERNS : List RE :=
  [.seq .wordB (.seq (reRep reD 6 8) .wordB),
   .seq .wordB (.seq (.ch '0') (.seq (.cls false [('1', '9')]) (.seq (reRepExact reD 2) .wordB))),
   .seq .wordB (.seq (.ch '1') (.seq (.cls false [('0', '2')]) (.seq (reRepExact reD 2) .wordB))),
   .seq .wordB (.seq (reRep reD 1 2) (.seq wsPlus (.seq (reRep reD 1 2)
     (.seq .wordB (.look true (.seq wsPlus reD))))))]

/-- `[^A-Z0-9]` (final cleanup class). -/
def nonAlnumUpper : RE := .cls true [('A', 'Z'), ('0', '9')]

/-- `/^(THE|A|AN)\s+/i` -/
def leadingArticleRE : RE :=
  .seq .bol (.seq (reAlts [reStr "THE", reStr "A", reStr "AN"]) wsPlus)

/-- Step 11 of `canonicalizeEntity`: remove a trailing "CITY STATECODE" pair
when more than two words remain, the last word is a US state code and the
word before it has at least 5 characters. -/
def cityStateStep (s : String) : String :=
  let words := jsSplitSpace s
  if words.length > 2 then
    let lastWord := words.getD (words.length - 1) ""
    let secondLastWord := words.getD (words.length - 2) ""
    if lastWord ≠ "" && STATE_CODES.contains lastWord &&
        secondLastWord ≠ "" && decide (5 ≤ secondLastWord.length) then
      String.intercalate " " (words.take (words.length - 2))
    else s
  else s

def collapseWS (s : String) : String := reReplace wsPlus s " " true

/-- `result.replace(/\s+/g, " ").trim()` -/
def collapseTrim (s : String) : String := jsTrim (collapseWS s)

/-- `/^\d+$/.test(result)` -/
def isAllDigits (s : String) : Bool :=
  !s.data.isEmpty && s.data.all (fun c => inRanges c [('0', '9')])

/-- `canonicalizeEntity(raw)`: the 13-step normalization chain, with every
regex of the source transliterated above.  Each `let` mirrors one source
statement, in source order. -/
def canonicalizeEntity (raw : Option String) : Option String :=
  match raw with
  | none => none
  | some raw0 =>
    if raw0 = "" || jsTrim raw0 = "" then none
    else
      -- Step 1: uppercase and trim
      let r := jsTrim (jsUpper raw0)
      -- Step 2: collapse multiple spaces
      let r := reReplace wsPlus r " " true
      -- Step 2b: remove date patterns before punctuation removal
      let r := EARLY_DATE_PATTERNS.foldl (fun s p => reReplace p s " " true) r
      let r := collapseTrim r
      -- Step 3: possessive 'S, then all remaining punctuation, to spaces
      let r := reReplace possessiveS r "S" true
      let r := collapseTrim (reReplace reNotWordWS r " " true)
      -- Step 5: compound phrase "BILL PAY" first, then single tokens
      let r := collapseTrim (reReplace billPayRE r " " true)
      let r := TRANSACTION_TOKENS.foldl (fun s t => reReplace (wordRE t) s " " true) r
      let r := collapseTrim r
      -- Step 6: payment service names only when followed by something else
      let r := PAYMENT_SERVICE_PREFIXES.foldl (fun s svc => reReplace (p2pRE svc) s "" true) r
      let r := collapseTrim r
      -- Step 7: business suffixes (at end, and chained before other suffixes)
      let r := ENTITY_SUFFIXES.foldl (fun s suf =>
        reReplace (suffixMidRE suf) (reReplace (suffixEndRE suf) s "" true) "" true) r
      let r := collapseTrim r
      -- Step 8: location patterns and trailing numeric IDs
      let r := LOCATION_PATTERNS.foldl (fun s p => reReplace p.1 s " " p.2) r
      let r := collapseTrim r
      -- Step 9: residual date patterns
      let r := DATE_PATTERNS.foldl (fun s p => reReplace p s " " true) r
      let r := collapseTrim r
      -- Step 10: trailing noise words
      let r := TRAILING_NOISE_WORDS.foldl (fun s w => reReplace (suffixEndRE w) s "" true) r
      let r := collapseTrim r
      -- Step 11: trailing "CITY STATECODE" pair (city ≥ 5 chars)
      let r := cityStateStep r
      let r := collapseTrim r
      -- Step 12: leading/trailing non-alphanumerics
      let r := reReplace (.seq (rePlus nonAlnumUpper) .eol)
        (reReplace (.seq .bol (rePlus nonAlnumUpper)) r "" false) "" false
      -- Step 13: leading article
      let r := collapseTrim (reReplace leadingArticleRE r "" false)
      -- Final guard: empty, too short, or purely numeric
      if r = "" || r.length < 2 || isAllDigits r then none else some r

/-! ## IEEE special values (`JSNum`)

Model of JavaScript float arithmetic for the unguarded divisions inside
`detectAmountDrift`: rationals plus `NaN` and `±∞` (negative zero is not
modelled; the operands here are medians/averages of rationals).  Every
comparison involving `NaN` is `false`, as in JavaScript. -/

inductive JSNum : Type where
  | num (q : ℚ) : JSNum
  | posInf : JSNum
  | negInf : JSNum
  | nan : JSNum
deriving DecidableEq

def jsDiv : JSNum → JSNum → JSNum
  | .nan, _ => .nan
  | _, .nan => .nan
  | .num a, .num b =>
      if b ≠ 0 then .num (a / b)
      else if a = 0 then .nan
      else if 0 < a then .posInf else .negInf
  | .num _, .posInf => .num 0
  | .num _, .negInf => .num 0
  | .posInf, .num b => if 0 ≤ b then .posInf else .negInf
  | .negInf, .num b => if 0 ≤ b then .negInf else .posInf
  | .posInf, _ => .nan
  | .negInf, _ => .nan

def jsMul : JSNum → JSNum → JSNum
  | .nan, _ => .nan
  | _, .nan => .nan
  | .num a, .num b => .num (a * b)
  | .num a, .posInf => if a = 0 then .nan else if 0 < a then .posInf else .negInf
  | .num a, .negInf => if a = 0 then .nan else if 0 < a then .negInf else .posInf
  | .posInf, .num b => if b = 0 then .nan else if 0 < b then .posInf else .negInf
  | .negInf, .num b => if b = 0 then .nan else if 0 < b then .negInf else .posInf
  | .posInf, .posInf => .posInf
  | .posInf, .negInf => .negInf
  | .negInf, .posInf => .negInf
  | .negInf, .negInf => .posInf

/-- JS `<` (false whenever an operand is `NaN`). -/
def jsLtB : JSNum → JSNum → Bool
  | .nan, _ => false
  | _, .nan => false
  | .num a, .num b => decide (a < b)
  | .num _, .posInf => true
  | .num _, .negInf => false
  | .posInf, _ => false
  | .negInf, .negInf => false
  | .negInf, _ => true

/-- JS `>`. -/
def jsGtB (a b : JSNum) : Bool := jsLtB b a

/-- JS `>=` (false whenever an operand is `NaN`). -/
def jsGeB : JSNum → JSNum → Bool
  | .nan, _ => false
  | _, .nan => false
  | a, b => !jsLtB a b

/-- JS `Math.max` on two values (`NaN` wins). -/
def jsMax : JSNum → JSNum → JSNum
  | .nan, _ => .nan
  | _, .nan => .nan
  | a, b => if jsLtB a b then b else a

/-- `Math.max(...l)` (spread): fold from `-Infinity`. -/
def jsMaxList (l : List JSNum) : JSNum := l.foldl jsMax .negInf

/-! ## Data model (`types.ts` §3 of the spec)

`FactRecord` carries the fields of `lib/analysis/types.ts` plus the bank
fields `entityRaw` / `entityCanonical` that every bank-mode component and
the spec's data model (§3) use (the updated type declaration itself is not
among the source files).  `dateValue` is the epoch day of the ISO date
string (see module docstring), `confidence`/`amountValue` are rationals. -/

structure FactRecord where
  id : String
  factType : String
  entityName : Option String
  entityRaw : Option String
  entityCanonical : Option String
  amountValue : Option ℚ
  amountCurrency : Option String
  dateValue : Option Int
  dateType : Option String
  status : String
  recurrence : String
  sourceReference : String
  confidence : ℚ
  direction : String
  clearingStatus : String
deriving DecidableEq

inductive Severity : Type where
  | high : Severity
  | medium : Severity
  | low : Severity
deriving DecidableEq

/-- One entry of an issue's `rationale` array.  The source pushes formatted
strings; each constructor corresponds to exactly one `rationale.push` site
(or to one of the two return branches of `formatImpactRationale`) and
carries the interpolated values.  `monthlyCadenceDerived` is the literal
string "Monthly cadence derived from transaction pattern", pushed by the
payment-gap detector and by the price-creep detector. -/
inductive Rationale : Type where
  -- detectUnpaidInvoiceAging: "`${n} unpaid invoice(s) older than ${agingDays} days`"
  | agedInvoices (count : Nat) (agingDays : ℚ) : Rationale
  -- "`Oldest invoice is ${oldestDays} days past ${due|issue} date`"
  | oldestInvoice (days : Int) (pastDue : Bool) : Rationale
  -- formatImpactRationale: "Impact: unknown (…)"
  | impactUnknown (reason : Option String) : Rationale
  -- formatImpactRationale: "`Estimated impact: ${formatted}`"
  | estimatedImpact (amount : ℚ) : Rationale
  -- detectRecurringPaymentGap: "`${n} monthly payments detected for this entity`"
  | monthlyPaymentsDetected (count : Nat) : Rationale
  -- "`Gap of ${gapDays} days after ${afterDate} (expected ~30 days)`"
  | gapAfter (gapDays : Int) (afterDate : Int) : Rationale
  -- "Monthly cadence derived from transaction pattern"
  | monthlyCadenceDerived : Rationale
  -- "`Approximately ${monthsMissed} payment(s) may be missing`"
  | paymentsMissing (monthsMissed : Int) : Rationale
  -- detectAmountDrift: "`${n} monthly payments analyzed`"
  | monthlyPaymentsAnalyzed (count : Nat) : Rationale
  -- "`Prior stable amount: ${priorMedian}/month`"
  | priorStableAmount (amount : ℚ) : Rationale
  -- "`Recent average: ${recentAvg}/month`"
  | recentAverage (amount : ℚ) : Rationale
  -- "`Decrease of ${driftPercent}% detected`"
  | decreaseDetected (driftPercent : JSNum) : Rationale
  -- detectDuplicateCharges: "`${n} payments with identical amount on the same day`"
  | dupPaymentsSameDay (count : Nat) : Rationale
  -- "`Entity: ${entity === "_unknown_" ? "Unknown" : entity}`"
  | dupEntity (entity : String) : Rationale
  -- "`Date: ${date}`"
  | dupDate (date : Int) : Rationale
  -- "`Amount: ${currency?} ${amount} each`"
  | amountEach (amount : ℚ) (currency : Option String) : Rationale
  -- detectBankDuplicateCharges: "`${n} identical charges on the same day`"
  | bankDupCount (count : Nat) : Rationale
  -- "`Date: ${date}`"
  | bankDupDate (date : Int) : Rationale
  -- "`Amount: ${currency} ${amount} each`"
  | bankDupAmountEach (currency : String) (amount : ℚ) : Rationale
  -- "`Potential overcharge: ${currency} ${impact}`"
  | bankDupOvercharge (currency : String) (impact : ℚ) : Rationale
  -- detectUnusualSpike: "`Recent charge (…) is ${multiplier}x the historical median`"
  | spikeRecentCharge (currency : Option String) (amount : ℚ) (multiplier : ℚ) : Rationale
  -- "`Historical median: … (${n} prior charges)`"
  | spikeHistoricalMedian (currency : Option String) (median : ℚ) (histCount : Nat) : Rationale
  -- "`Date of spike: ${date}`"
  | spikeDate (date : Int) : Rationale
  -- "`Amount above typical: ${currency} ${spikeAmount}`"
  | spikeAboveTypical (currency : String) (amount : ℚ) : Rationale
  -- detectNewRecurringCharge: "`New monthly recurring charge started ${d} days ago`"
  | newRecurringStarted (daysAgo : Int) : Rationale
  -- "`${n} occurrences detected with consistent ~30-day intervals`"
  | occurrencesDetected (count : Nat) : Rationale
  -- "Monthly cadence derived from transaction pattern (strict match)"
  | derivedStrictNote : Rationale
  -- "Monthly cadence derived from transaction pattern (likely match, looser criteria)"
  | derivedLikelyNote : Rationale
  -- "`Typical amount: ${currency} ${amount}`"
  | typicalAmount (currency : String) (amount : ℚ) : Rationale
  -- "`Annualized: ${currency} ${amount}`"
  | annualizedAmount (currency : String) (amount : ℚ) : Rationale
  -- detectPriceCreep: "`Last charge (…) is ${pct}% higher than baseline`"
  | creepLastCharge (currency : Option String) (amount : ℚ) (percent : ℚ) : Rationale
  -- "`Baseline median: … (${n} prior charges)`"
  | creepBaseline (currency : Option String) (median : ℚ) (count : Nat) : Rationale
  -- "Baseline amounts were stable (within ±10%)"
  | creepBaselineStable : Rationale
  -- "`Annualized impact of increase: ${currency} ${amount}`"
  | creepAnnualized (currency : String) (amount : ℚ) : Rationale
deriving DecidableEq

structure EvidenceStats where
  count : Nat
  dateRange : Option (Int × Int)
  medianAmount : Option ℚ
  currency : Option String
  sourceReferences : List String
deriving DecidableEq

/-- A candidate issue.  The purely presentational `title` and
`evidenceSummary` strings (built with `toFixed` / `Intl.NumberFormat`) are
not modelled; no claim refers to them.  All other fields of the source's
`ProposedIssue` are present. -/
structure ProposedIssue where
  issueType : String
  severity : Severity
  confidence : ℚ
  impactMin : Option ℚ
  impactMax : Option ℚ
  currency : Option String
  rationale : List Rationale
  evidenceFactIds : List String
  entityName : Option String
  evidenceStats : Option EvidenceStats
deriving DecidableEq

/-! ## Shared numeric helpers -/

/-- `median(values)` as defined (identically) in `impact.ts`,
`classifyMonthly.ts`, `unusualSpike.ts`, `priceCreep.ts`: sort ascending,
middle element (odd length) or mean of the two middle elements (even).
The guarded versions return 0 on the empty list; the one local to
`amountDrift.ts` has no empty guard but is only applied to lists of
length ≥ 2. -/
def medianQ (values : List ℚ) : ℚ :=
  if values.isEmpty then 0
  else
    let sorted := sSort (fun a b => decide (a < b)) values
    let mid := sorted.length / 2
    if sorted.length % 2 ≠ 0 then sorted.getD mid 0
    else (sorted.getD (mid - 1) 0 + sorted.getD mid 0) / 2

/-- `Math.max(...l)` on plain rationals (only applied to non-empty lists). -/
def listMaxQ (l : List ℚ) : ℚ := l.foldl max (l.headD 0)

/-- `Math.max(...l)` on day counts (only applied to non-empty lists). -/
def listMaxI (l : List Int) : Int := l.foldl max (l.headD 0)

/-- `daysBetween(d1, d2)`: with epoch-day values both the `Math.ceil` and the
`Math.round` variants in the source compute exactly `|d2 - d1|` days. -/
def daysBetween (d1 d2 : Int) : Int := ((d2 - d1).natAbs : Int)

/-- Stable sort of facts by parsed date ascending
(`(a, b) => parseDate(a.dateValue!) - parseDate(b.dateValue!)`); callers
filter to facts with dates first. -/
def sortFactsByDate (facts : List FactRecord) : List FactRecord :=
  sSort (fun a b => decide (a.dateValue.getD 0 < b.dateValue.getD 0)) facts

/-- Day gaps between consecutive facts of a date-sorted list. -/
def consecIntervals : List FactRecord → List Int
  | [] => []
  | [_] => []
  | a :: b :: rest =>
      daysBetween (a.dateValue.getD 0) (b.dateValue.getD 0) :: consecIntervals (b :: rest)

/-! ## Impact calculators (`impact.ts`) -/

structure ImpactResult where
  impactMin : Option ℚ
  impactMax : Option ℚ
  currency : Option String
  reason : Option String
deriving DecidableEq

def NO_IMPACT : ImpactResult :=
  { impactMin := none, impactMax := none, currency := none, reason := none }

/-- `getConsistentCurrency`: the currencies of the facts that have one; null
when there are none or when they are not all identical (`Set` size ≠ 1). -/
def getConsistentCurrency (facts : List FactRecord) : Option String :=
  let currencies := facts.filterMap (fun f => f.amountCurrency)
  if currencies.length = 0 then none
  else if currencies.dedup.length ≠ 1 then none
  else currencies.head?

/-- `areAmountsStable(amounts, threshold)`. -/
def areAmountsStable (amounts : List ℚ) (threshold : ℚ) : Bool :=
  if amounts.length < 2 then false
  else
    let med := medianQ amounts
    if med = 0 then false
    else decide (listMaxQ (amounts.map (fun a => |a - med| / med)) ≤ threshold)

/-- JS truthiness of `getConsistentCurrency`'s result inside
`if (!currency)`: both `null` and `""` are falsy. -/
def currencyFalsy (c : Option String) : Bool := c.getD "" = ""

def calculateUnpaidInvoiceImpact (agedInvoices : List FactRecord) : ImpactResult :=
  if agedInvoices.length = 0 then
    { NO_IMPACT with reason := some "No aged invoices" }
  else if (agedInvoices.filter (fun f => f.amountValue.isSome)).length ≠ agedInvoices.length then
    { NO_IMPACT with reason := some "Some invoices missing amount values" }
  else if (agedInvoices.filter (fun f => f.amountCurrency.isSome)).length ≠ agedInvoices.length then
    { NO_IMPACT with reason := some "Some invoices missing explicit currency" }
  else
    let currency := getConsistentCurrency agedInvoices
    if currencyFalsy currency then
      { NO_IMPACT with reason := some "Mixed currencies across invoices" }
    else
      let total := agedInvoices.foldl (fun sum f => sum + f.amountValue.getD 0) 0
      { impactMin := some total, impactMax := some total, currency := currency, reason := none }

def calculatePaymentGapImpact (paymentsBeforeGap : List FactRecord)
    (monthsMissed : Int) : ImpactResult :=
  if monthsMissed ≤ 0 then
    { NO_IMPACT with reason := some "No months missed" }
  else if paymentsBeforeGap.length < 2 then
    { NO_IMPACT with reason := some "Insufficient payment history (need at least 2)" }
  else if !paymentsBeforeGap.all (fun p => p.recurrence == "monthly") then
    { NO_IMPACT with reason := some "Not all payments have explicit monthly recurrence" }
  else if (paymentsBeforeGap.filter (fun p => p.amountValue.isSome)).length ≠ paymentsBeforeGap.length then
    { NO_IMPACT with reason := some "Some payments missing amount values" }
  else if (paymentsBeforeGap.filter (fun p => p.amountCurrency.isSome)).length ≠ paymentsBeforeGap.length then
    { NO_IMPACT with reason := some "Some payments missing explicit currency" }
  else
    let currency := getConsistentCurrency paymentsBeforeGap
    if currencyFalsy currency then
      { NO_IMPACT with reason := some "Mixed currencies across payments" }
    else
      let amounts := paymentsBeforeGap.map (fun p => p.amountValue.getD 0)
      if !areAmountsStable amounts (1/10) then
        { NO_IMPACT with reason := some "Payment amounts not stable (>10% variance)" }
      else
        let impact := medianQ amounts * (monthsMissed : ℚ)
        { impactMin := some impact, impactMax := some impact, currency := currency, reason := none }

def calculateDriftImpact (allPayments : List FactRecord)
    (priorMedian recentAvg : ℚ) : ImpactResult :=
  if allPayments.length < 4 then
    { NO_IMPACT with reason := some "Insufficient payment history (need at least 4)" }
  else if !allPayments.all (fun p => p.recurrence == "monthly") then
    { NO_IMPACT with reason := some "Not all payments have explicit monthly recurrence" }
  else if (allPayments.filter (fun p => p.amountCurrency.isSome)).length ≠ allPayments.length then
    { NO_IMPACT with reason := some "Some payments missing explicit currency" }
  else
    let currency := getConsistentCurrency allPayments
    if currencyFalsy currency then
      { NO_IMPACT with reason := some "Mixed currencies across payments" }
    else
      let monthlyDifference := priorMedian - recentAvg
      if monthlyDifference ≤ 0 then
        { NO_IMPACT with reason := some "No decrease detected" }
      else
        let annualImpact := monthlyDifference * 12
        { impactMin := some annualImpact, impactMax := some annualImpact,
          currency := currency, reason := none }

def calculateDuplicateImpact (duplicatePayments : List FactRecord) : ImpactResult :=
  if duplicatePayments.length < 2 then
    { NO_IMPACT with reason := some "Not enough duplicates" }
  else if (duplicatePayments.filter (fun p => p.amountValue.isSome)).length ≠ duplicatePayments.length then
    { NO_IMPACT with reason := some "Some payments missing amount values" }
  else if (duplicatePayments.filter (fun p => p.amountCurrency.isSome)).length ≠ duplicatePayments.length then
    { NO_IMPACT with reason := some "Some payments missing explicit currency" }
  else
    let currency := getConsistentCurrency duplicatePayments
    if currencyFalsy currency then
      { NO_IMPACT with reason := some "Mixed currencies across payments" }
    else
      let amount := (duplicatePayments.head?.bind (fun p => p.amountValue)).getD 0
      let duplicatedAmount := amount * ((duplicatePayments.length : ℚ) - 1)
      { impactMin := some duplicatedAmount, impactMax := some duplicatedAmount,
        currency := currency, reason := none }

/-- `formatImpactRationale`: both branches of the source return a non-empty
string (so the detectors' `if (impactRationale)` guard always passes and
the entry is always pushed). -/
def formatImpactRationale (impact : ImpactResult) : Rationale :=
  match impact.impactMin with
  | none => .impactUnknown impact.reason
  | some v => .estimatedImpact v

/-! ## Evidence statistics (`evidenceSummary.ts`)

The `generate*Summary` helpers return `{summary, stats}` where `summary` is
a display string (not modelled) and `stats = computeEvidenceStats(facts)`;
the detectors store `stats` in the issue's `evidenceStats` field. -/

def computeEvidenceStats (facts : List FactRecord) : EvidenceStats :=
  if facts.length = 0 then
    { count := 0, dateRange := none, medianAmount := none, currency := none,
      sourceReferences := [] }
  else
    let factsWithDates := facts.filter (fun f => f.dateValue.isSome)
    let dateRange :=
      if factsWithDates.length > 0 then
        let sorted := sortFactsByDate factsWithDates
        some ((sorted.head?.bind (fun f => f.dateValue)).getD 0,
              (sorted.getLast?.bind (fun f => f.dateValue)).getD 0)
      else none
    let amounts := facts.filterMap (fun f => f.amountValue)
    let medianAmount := if amounts.length > 0 then some (medianQ amounts) else none
    -- `[...new Set(facts.map(f => f.amountCurrency).filter(Boolean))]`
    let currencies := ((facts.filterMap (fun f => f.amountCurrency)).filter (fun c => c ≠ "")).dedup
    let currency := if currencies.length = 1 then currencies.head? else none
    { count := facts.length, dateRange := dateRange, medianAmount := medianAmount,
      currency := currency, sourceReferences := facts.map (fun f => f.sourceReference) }

/-! ## Merchant exclusion list (`exclusions.ts`) -/

def STRONG_TRANSFER_KEYWORDS : List String :=
  ["ZELLE", "VENMO", "CASH APP", "CASHAPP", "PAYPAL TRANSFER", "APPLE CASH",
   "WIRE TRANSFER", "ACH TRANSFER", "INTERNAL TRANSFER", "EXTERNAL TRANSFER"]

def WEAK_TRANSFER_PATTERNS : List String :=
  ["PAYMENT", "TRANSFER", "XFER", "ACH", "WIRE"]

def MERCHANT_INDICATORS : List String :=
  ["AMAZON", "NETFLIX", "SPOTIFY", "HULU", "DISNEY", "APPLE.COM", "GOOGLE",
   "UBER", "LYFT", "DOORDASH", "GRUBHUB", "STARBUCKS", "WALMART", "TARGET",
   "COSTCO", "CVS", "WALGREENS", "SHELL", "CHEVRON", "EXXON", "AT&T",
   "VERIZON", "T-MOBILE", "COMCAST", "SPECTRUM"]

def CARD_PAYMENT_PATTERNS : List String :=
  ["AUTOPAY", "AUTO PAY", "CARD PAYMENT", "ONLINE PAYMENT", "MINIMUM PAYMENT",
   "STATEMENT PAYMENT", "BILL PAY TO", "BILLPAY"]

def BANK_SERVICE_PATTERNS : List String :=
  ["OVERDRAFT", "NSF FEE", "SERVICE CHARGE", "MONTHLY FEE", "INTEREST CHARGE",
   "FINANCE CHARGE", "MAINTENANCE FEE"]

structure ExclusionResult where
  isExcluded : Bool
  reason : Option String
  pattern : Option String
deriving DecidableEq

/-- The weak-transfer loop at the end of `checkExclusion` (first pattern that
returns wins; non-matching iterations fall through to the next pattern). -/
def weakTransferCheck (canonical raw : String) : List String → ExclusionResult
  | [] => { isExcluded := false, reason := none, pattern := none }
  | pat :: rest =>
    let isAtStart := jsStartsWith canonical pat
    let isShortEntity := decide (canonical.length < 20)
    let patternDominates := decide (canonical.length ≤ pat.length + 10)
    if isAtStart && (isShortEntity || patternDominates) then
      let isJustThePattern := canonical == pat || decide (canonical.length ≤ pat.length + 12)
      if isJustThePattern then
        { isExcluded := true, reason := some "Transfer/payment", pattern := some pat }
      else
        -- `/\d{4}$/.test(raw)`
        let hasTransferContext :=
          jsIncludes raw "TO " || jsIncludes raw "FROM " || jsIncludes raw "SEND" ||
          jsIncludes raw "RECEIVED" || reTest (.seq (reRepExact reD 4) .eol) raw
        if hasTransferContext then
          { isExcluded := true, reason := some "Transfer/payment", pattern := some pat }
        else weakTransferCheck canonical raw rest
    else weakTransferCheck canonical raw rest

def checkExclusion (entityCanonical : Option String) (entityRaw : Option String) :
    ExclusionResult :=
  -- `if (!entityCanonical)`: null and "" are falsy
  if (entityCanonical.getD "") = "" then
    { isExcluded := false, reason := none, pattern := none }
  else
    let canonical := jsUpper (entityCanonical.getD "")
    let raw := jsUpper (entityRaw.getD "")
    if MERCHANT_INDICATORS.any (fun ind => jsIncludes canonical ind) then
      { isExcluded := false, reason := none, pattern := none }
    else
      match STRONG_TRANSFER_KEYWORDS.find? (fun k => jsIncludes canonical k) with
      | some k => { isExcluded := true, reason := some "P2P transfer service", pattern := some k }
      | none =>
        match CARD_PAYMENT_PATTERNS.find? (fun p => jsIncludes canonical p || jsIncludes raw p) with
        | some p => { isExcluded := true, reason := some "Credit card payment", pattern := some p }
        | none =>
          match BANK_SERVICE_PATTERNS.find? (fun p => jsIncludes canonical p) with
          | some p => { isExcluded := true, reason := some "Bank fee/service", pattern := some p }
          | none => weakTransferCheck canonical raw WEAK_TRANSFER_PATTERNS

/-- `isNonMerchantTransaction(entityCanonical, entityRaw = null)`; the spike
detector calls it with the single argument. -/
def isNonMerchantTransaction (entityCanonical : Option String)
    (entityRaw : Option String) : Bool :=
  (checkExclusion entityCanonical entityRaw).isExcluded

/-! ## Tiered monthly recurrence classifier (`recurrence/classifyMonthly.ts`,
`recurrence/types.ts`) -/

def MONTHLY_INTERVAL_MIN : Int := 28
def MONTHLY_INTERVAL_MAX : Int := 33
def AMOUNT_TOLERANCE : ℚ := 1/10
def MONTHLY_INTERVAL_MIN_LOOSE : Int := 28
def MONTHLY_INTERVAL_MAX_LOOSE : Int := 35
def AMOUNT_TOLERANCE_LOOSE : ℚ := 1/5
def MIN_OCCURRENCES : Nat := 3
def MIN_OCCURRENCES_TIER2 : Nat := 4
def MIN_VALID_INTERVALS : Nat := 2

inductive RecurrenceTier : Type where
  | strict : RecurrenceTier
  | likely : RecurrenceTier
  | none : RecurrenceTier
deriving DecidableEq

/-- `intervalStats` (the source also stores `stdDev`, an irrational square
root used only for diagnostics and referenced by no claim; omitted). -/
structure IntervalStats where
  mean : ℚ
  withinRange : Nat
  withinLooseRange : Nat
deriving DecidableEq

structure RecurrenceClassification where
  isMonthly : Bool
  tier : RecurrenceTier
  confidence : ℚ
  evidenceCount : Nat
  medianAmount : Option ℚ
  intervalStats : Option IntervalStats
deriving DecidableEq

/-- `entityCanonical || entityRaw || entityName || "_unknown_"` (bank
components). -/
def getEntityKey (fact : FactRecord) : String :=
  strOrElse fact.entityCanonical
    (strOrElse fact.entityRaw (strOrElse fact.entityName "_unknown_"))

/-- `entityCanonical || entityName || "_unknown_"` (billing detectors). -/
def getEntityKeyCN (fact : FactRecord) : String :=
  strOrElse fact.entityCanonical (strOrElse fact.entityName "_unknown_")

def isQualifyingFact (fact : FactRecord) : Bool :=
  fact.direction == "outflow" && fact.clearingStatus == "cleared" &&
  fact.amountValue.isSome && fact.dateValue.isSome

def intSum (l : List Int) : Int := l.foldl (fun a b => a + b) 0

def qSum (l : List ℚ) : ℚ := l.foldl (fun a b => a + b) 0

def buildNoneClassification (qualifying : List FactRecord) (intervals : List Int)
    (medianAmt : Option ℚ) : RecurrenceClassification :=
  let intervalMean : ℚ :=
    if intervals.length > 0 then (intSum intervals : ℚ) / (intervals.length : ℚ) else 0
  let validStrict := (intervals.filter (fun i =>
    decide (MONTHLY_INTERVAL_MIN ≤ i) && decide (i ≤ MONTHLY_INTERVAL_MAX))).length
  let validLoose := (intervals.filter (fun i =>
    decide (MONTHLY_INTERVAL_MIN_LOOSE ≤ i) && decide (i ≤ MONTHLY_INTERVAL_MAX_LOOSE))).length
  let istats : Option IntervalStats :=
    if intervals.length > 0 then
      some { mean := intervalMean, withinRange := validStrict, withinLooseRange := validLoose }
    else Option.none
  { isMonthly := false, tier := .none, confidence := 0,
    evidenceCount := qualifying.length, medianAmount := medianAmt,
    intervalStats := istats }

def classifyEntity (facts : List FactRecord) : RecurrenceClassification :=
  let qualifying := facts.filter isQualifyingFact
  if qualifying.length < MIN_OCCURRENCES then
    buildNoneClassification qualifying [] Option.none
  else
    let sorted := sortFactsByDate qualifying
    let intervals := consecIntervals sorted
    let amounts := qualifying.map (fun f => |f.amountValue.getD 0|)
    let medianAmount := medianQ amounts
    let strictIntervals := intervals.filter (fun i =>
      decide (MONTHLY_INTERVAL_MIN ≤ i) && decide (i ≤ MONTHLY_INTERVAL_MAX))
    let looseIntervals := intervals.filter (fun i =>
      decide (MONTHLY_INTERVAL_MIN_LOOSE ≤ i) && decide (i ≤ MONTHLY_INTERVAL_MAX_LOOSE))
    let strictAmountStable := amounts.all (fun amount =>
      if medianAmount = 0 then true
      else decide (|amount - medianAmount| / medianAmount ≤ AMOUNT_TOLERANCE))
    let looseAmountStable := amounts.all (fun amount =>
      if medianAmount = 0 then true
      else decide (|amount - medianAmount| / medianAmount ≤ AMOUNT_TOLERANCE_LOOSE))
    let intervalMean : ℚ := (intSum intervals : ℚ) / (intervals.length : ℚ)
    if MIN_VALID_INTERVALS ≤ strictIntervals.length && strictAmountStable then
      let intervalConsistency : ℚ := (strictIntervals.length : ℚ) / (intervals.length : ℚ)
      let amountDeviations := amounts.map (fun a =>
        if 0 < medianAmount then |a - medianAmount| / medianAmount else 0)
      let avgAmountDeviation := qSum amountDeviations / (amountDeviations.length : ℚ)
      let amountConsistency := 1 - avgAmountDeviation / AMOUNT_TOLERANCE
      let evidenceBoost := min ((qualifying.length : ℚ) / 6) 1
      let rawConfidence := intervalConsistency * (1/2) + amountConsistency * (3/10) + evidenceBoost * (1/5)
      let confidence := max (85/100) (min 1 rawConfidence)
      let istats : IntervalStats :=
        { mean := intervalMean, withinRange := strictIntervals.length,
          withinLooseRange := looseIntervals.length }
      { isMonthly := true, tier := .strict, confidence := confidence,
        evidenceCount := qualifying.length, medianAmount := some medianAmount,
        intervalStats := some istats }
    else if MIN_OCCURRENCES_TIER2 ≤ qualifying.length &&
        MIN_VALID_INTERVALS ≤ looseIntervals.length && looseAmountStable then
      let intervalConsistency : ℚ := (looseIntervals.length : ℚ) / (intervals.length : ℚ)
      let amountDeviations := amounts.map (fun a =>
        if 0 < medianAmount then |a - medianAmount| / medianAmount else 0)
      let avgAmountDeviation := qSum amountDeviations / (amountDeviations.length : ℚ)
      let amountConsistency := 1 - avgAmountDeviation / AMOUNT_TOLERANCE_LOOSE
      -- `Math.min((qualifying.length - 3) / 5, 1)` (counts from the 4th on)
      let evidenceBoost := min (((qualifying.length : ℚ) - 3) / 5) 1
      let rawConfidence := intervalConsistency * (2/5) + amountConsistency * (3/10) + evidenceBoost * (3/10)
      let confidence := min (3/4) (max (1/2) rawConfidence)
      let istats : IntervalStats :=
        { mean := intervalMean, withinRange := strictIntervals.length,
          withinLooseRange := looseIntervals.length }
      { isMonthly := true, tier := .likely, confidence := confidence,
        evidenceCount := qualifying.length, medianAmount := some medianAmount,
        intervalStats := some istats }
    else
      buildNoneClassification qualifying intervals (some medianAmount)

def classifyMonthlyByEntity (facts : List FactRecord) :
    List (String × RecurrenceClassification) :=
  (groupByKey getEntityKey facts).map (fun g => (g.1, classifyEntity g.2))

/-! ## Scan-mode selection (`scanMode.ts`) -/

inductive ScanMode : Type where
  | bank : ScanMode
  | billing : ScanMode
deriving DecidableEq

/-- `detectScanMode`: bank iff the fraction of facts whose `direction` is
`inflow` or `outflow` strictly exceeds 0.8; empty input is billing.  (The
source also computes an unused `csvFacts` local, which has no effect and is
omitted.) -/
def detectScanMode (facts : List FactRecord) : ScanMode :=
  if facts.length = 0 then .billing
  else
    let factsWithDirection := facts.filter (fun f =>
      f.direction == "inflow" || f.direction == "outflow")
    let directionRatio : ℚ := (factsWithDirection.length : ℚ) / (facts.length : ℚ)
    if directionRatio > 4/5 then .bank else .billing

/-! ## Billing-mode detectors

Each `for (const [entity, group] of map)` loop that pushes at most one
issue per iteration is embedded as `filterMap` of a per-group function
over the insertion-ordered group list. -/

/-- `Math.min(...)` over a non-empty list (detector confidences). -/
def listMinQ (l : List ℚ) : ℚ := l.foldl min (l.headD 0)

/-! ### `detectUnpaidInvoiceAging` (billing)

The source takes "today" from `new Date()`; it is passed as the epoch-day
parameter `today`. -/

def DEFAULT_AGING_DAYS : ℚ := 45

def unpaidAgingGroupIssue (today : Int) (agingDays : ℚ)
    (g : String × List FactRecord) : Option ProposedIssue :=
  let entity := g.1
  let invoices := g.2
  let aged := invoices.filter (fun inv =>
    decide (agingDays ≤ ((daysBetween (inv.dateValue.getD 0) today : Int) : ℚ)))
  if aged.length = 0 then none
  else
    let impact := calculateUnpaidInvoiceImpact aged
    let oldestDays := listMaxI (aged.map (fun inv => daysBetween (inv.dateValue.getD 0) today))
    let evidenceStats := computeEvidenceStats aged
    let displayName :=
      if entity = "_unknown_" then Option.none
      else some (strOrElse (aged.head?.bind (fun f => f.entityName)) entity)
    -- `aged[0].dateType === "due"`
    let pastDue := decide ((aged.head?.bind (fun f => f.dateType)) = some "due")
    let rationale := [Rationale.agedInvoices aged.length agingDays,
        Rationale.oldestInvoice oldestDays pastDue] ++ [formatImpactRationale impact]
    let issue : ProposedIssue :=
      { issueType := "unpaid_invoice_aging",
        severity := if 90 < oldestDays then .high else if 60 < oldestDays then .medium else .low,
        confidence := listMinQ (aged.map (fun a => a.confidence)),
        impactMin := impact.impactMin, impactMax := impact.impactMax,
        currency := impact.currency, rationale := rationale,
        evidenceFactIds := aged.map (fun a => a.id), entityName := displayName,
        evidenceStats := some evidenceStats }
    some issue

def detectUnpaidInvoiceAging (today : Int) (facts : List FactRecord)
    (agingDays : ℚ) : List ProposedIssue :=
  let unpaidInvoices := facts.filter (fun f =>
    f.factType == "invoice" && f.status == "unpaid" && f.dateValue.isSome &&
    (f.dateType == some "due" || f.dateType == some "issued"))
  if unpaidInvoices.length = 0 then []
  else (groupByKey getEntityKeyCN unpaidInvoices).filterMap (unpaidAgingGroupIssue today agingDays)

/-! ### `detectRecurringPaymentGap` (billing, with derived-recurrence option) -/

def GAP_THRESHOLD_DAYS : Int := 45
def MIN_PAYMENTS_FOR_PATTERN : Nat := 3

/-- `isMonthlyRecurring(fact, derivedRecurrence?)`: explicit `"monthly"`
wins; otherwise the derived classification is consulted only when the map
was provided *and* the stored recurrence is exactly `"one_time"`. -/
def isMonthlyRecurring (fact : FactRecord)
    (derivedRecurrence : Option (List (String × RecurrenceClassification))) : Bool :=
  if fact.recurrence == "monthly" then true
  else
    match derivedRecurrence with
    | some dr =>
        if fact.recurrence == "one_time" then
          ((alistGet dr (getEntityKeyCN fact)).map (fun c => c.isMonthly)).getD false
        else false
    | none => false

structure GapRec where
  afterDate : Int
  gapDays : Int
  index : Nat
deriving DecidableEq

/-- The gap scan of `detectRecurringPaymentGap`: for each consecutive pair
of the date-sorted list whose day distance exceeds the threshold, record
`(afterDate, gapDays, index-of-earlier-fact)`. -/
def gapScan (i : Nat) : List FactRecord → List GapRec
  | [] => []
  | [_] => []
  | a :: b :: rest =>
      let days := daysBetween (a.dateValue.getD 0) (b.dateValue.getD 0)
      (if GAP_THRESHOLD_DAYS < days then
        [{ afterDate := a.dateValue.getD 0, gapDays := days, index := i }] else [])
        ++ gapScan (i + 1) (b :: rest)

def paymentGapGroupIssue
    (derivedRecurrence : Option (List (String × RecurrenceClassification)))
    (g : String × List FactRecord) : Option ProposedIssue :=
  let entity := g.1
  let payments := g.2
  if payments.length < MIN_PAYMENTS_FOR_PATTERN then none
  else
    let sorted := sortFactsByDate payments
    let gaps := gapScan 0 sorted
    match gaps.getLast? with
    | none => none
    | some lastGap =>
      -- `Math.floor(gapDays / 30) - 1` (gapDays ≥ 0, so `Int` division is floor)
      let monthsMissed : Int := lastGap.gapDays / 30 - 1
      let paymentsBeforeGap := sorted.take (lastGap.index + 1)
      let impact := calculatePaymentGapImpact paymentsBeforeGap monthsMissed
      let evidenceStats := computeEvidenceStats sorted
      let displayName :=
        if entity = "_unknown_" then Option.none
        else some (strOrElse (sorted.head?.bind (fun f => f.entityName)) entity)
      -- `derivedRecurrence?.get(entity)?.isMonthly && sorted.some(p => p.recurrence !== "monthly")`
      let usedDerivedRecurrence :=
        (((derivedRecurrence.bind (fun dr => alistGet dr entity)).map
          (fun c => c.isMonthly)).getD false)
        && sorted.any (fun p => p.recurrence != "monthly")
      let rationale :=
        [Rationale.monthlyPaymentsDetected sorted.length,
         Rationale.gapAfter lastGap.gapDays lastGap.afterDate]
        ++ (if usedDerivedRecurrence then [Rationale.monthlyCadenceDerived] else [])
        ++ (if 0 < monthsMissed then [Rationale.paymentsMissing monthsMissed] else [])
        ++ [formatImpactRationale impact]
      let issue : ProposedIssue :=
        { issueType := "recurring_payment_gap",
          severity := if 3 ≤ monthsMissed then .high else if 2 ≤ monthsMissed then .medium else .low,
          confidence := listMinQ (sorted.map (fun p => p.confidence)),
          impactMin := impact.impactMin, impactMax := impact.impactMax,
          currency := impact.currency, rationale := rationale,
          evidenceFactIds := sorted.map (fun p => p.id), entityName := displayName,
          evidenceStats := some evidenceStats }
      some issue

def detectRecurringPaymentGap (facts : List FactRecord)
    (derivedRecurrence : Option (List (String × RecurrenceClassification))) :
    List ProposedIssue :=
  let monthlyPayments := facts.filter (fun f =>
    f.factType == "payment" && isMonthlyRecurring f derivedRecurrence &&
    f.dateValue.isSome && f.status == "paid")
  if monthlyPayments.length < MIN_PAYMENTS_FOR_PATTERN then []
  else (groupByKey getEntityKeyCN monthlyPayments).filterMap
    (paymentGapGroupIssue derivedRecurrence)

/-! ### `detectAmountDrift` (billing)

The source signature is `detectAmountDrift(facts)`; `runAnalysis` passes a
second options argument that JavaScript ignores.  The divisions here
(`deviation / priorMedian`, `drift`) are the source's unguarded ones, so
they are computed in `JSNum` (see module docstring). -/

def DRIFT_MIN_OCCURRENCES : Nat := 4
def DRIFT_THRESHOLD : ℚ := 1/5
def STABILITY_THRESHOLD : ℚ := 1/10

def amountDriftGroupIssue (g : String × List FactRecord) : Option ProposedIssue :=
  let entity := g.1
  let payments := g.2
  if payments.length < DRIFT_MIN_OCCURRENCES then none
  else
    let sorted := sortFactsByDate payments
    let amounts := sorted.map (fun p => p.amountValue.getD 0)
    if amounts.length < 4 then none
    else
      let priorAmounts := amounts.take (amounts.length - 2)
      let recentAmounts := amounts.drop (amounts.length - 2)
      let priorMedian := medianQ priorAmounts
      -- `Math.max(...priorAmounts.map(a => Math.abs(a - priorMedian) / priorMedian))`
      let maxPriorDeviation := jsMaxList (priorAmounts.map (fun a =>
        jsDiv (.num |a - priorMedian|) (.num priorMedian)))
      if jsGtB maxPriorDeviation (.num STABILITY_THRESHOLD) then none
      else
        let recentAvg := qSum recentAmounts / (recentAmounts.length : ℚ)
        let drift := jsDiv (.num (priorMedian - recentAvg)) (.num priorMedian)
        if jsLtB drift (.num DRIFT_THRESHOLD) then none
        else
          let impact := calculateDriftImpact sorted priorMedian recentAvg
          let driftPercent := jsMul drift (.num 100)
          let evidenceStats := computeEvidenceStats sorted
          let displayName :=
            if entity = "_unknown_" then Option.none
            else some (strOrElse (sorted.head?.bind (fun f => f.entityName)) entity)
          let rationale := [Rationale.monthlyPaymentsAnalyzed sorted.length,
            Rationale.priorStableAmount priorMedian, Rationale.recentAverage recentAvg,
            Rationale.decreaseDetected driftPercent] ++ [formatImpactRationale impact]
          let issue : ProposedIssue :=
            { issueType := "amount_drift",
              severity := if jsGeB drift (.num (2/5)) then .high
              else if jsGeB drift (.num (3/10)) then .medium else .low,
              confidence := listMinQ (sorted.map (fun p => p.confidence)),
              impactMin := impact.impactMin, impactMax := impact.impactMax,
              currency := impact.currency, rationale := rationale,
              evidenceFactIds := sorted.map (fun p => p.id), entityName := displayName,
              evidenceStats := some evidenceStats }
          some issue

def detectAmountDrift (facts : List FactRecord) : List ProposedIssue :=
  let monthlyPayments := facts.filter (fun f =>
    f.factType == "payment" && f.recurrence == "monthly" &&
    f.dateValue.isSome && f.amountValue.isSome)
  if monthlyPayments.length < DRIFT_MIN_OCCURRENCES then []
  else (groupByKey getEntityKeyCN monthlyPayments).filterMap amountDriftGroupIssue

/-! ### `detectDuplicateCharges` (billing) -/

def dupBillingGroupIssue (g : (String × Int × ℚ) × List FactRecord) :
    Option ProposedIssue :=
  let group := g.2
  if group.length < 2 then none
  else
    let entity := g.1.1
    let date := g.1.2.1
    let impact := calculateDuplicateImpact group
    let rationale :=
      [Rationale.dupPaymentsSameDay group.length,
       Rationale.dupEntity (if entity = "_unknown_" then "Unknown" else entity),
       Rationale.dupDate date]
      -- `if (group[0].amountValue !== null)`
      ++ (match group.head?.bind (fun f => f.amountValue) with
          | some amt => [Rationale.amountEach amt (group.head?.bind (fun f => f.amountCurrency))]
          | none => [])
      ++ [formatImpactRationale impact]
    let issue : ProposedIssue :=
      { issueType := "duplicate_charge", severity := .low,
        confidence := listMinQ (group.map (fun p => p.confidence)) * (4/5),
        impactMin := impact.impactMin, impactMax := impact.impactMax,
        currency := impact.currency, rationale := rationale,
        evidenceFactIds := group.map (fun p => p.id),
        entityName := if entity = "_unknown_" then Option.none else some entity,
        evidenceStats := Option.none }
    some issue

def detectDuplicateCharges (facts : List FactRecord) : List ProposedIssue :=
  let payments := facts.filter (fun f =>
    f.factType == "payment" && f.dateValue.isSome && f.amountValue.isSome)
  if payments.length < 2 then []
  else (groupByKey (fun p =>
    (strOrElse p.entityName "_unknown_", p.dateValue.getD 0, p.amountValue.getD 0))
    payments).filterMap dupBillingGroupIssue

/-! ## Bank-mode detectors -/

/-! ### `detectBankDuplicateCharges` (no exclusion list, by design) -/

def HIGH_AMOUNT_THRESHOLD : ℚ := 100
def MEDIUM_AMOUNT_THRESHOLD : ℚ := 25

def bankDupGroupIssue (g : (String × Int × ℚ) × List FactRecord) :
    Option ProposedIssue :=
  let group := g.2
  if group.length < 2 then none
  else
    let entity := g.1.1
    let date := g.1.2.1
    let amount := |(group.head?.bind (fun f => f.amountValue)).getD 0|
    let currency := group.head?.bind (fun f => f.amountCurrency)
    let impact := amount * ((group.length : ℚ) - 1)
    -- `let severity = "low"; if (amount >= 100) medium; else if (amount >= 25) low;`
    let severity := if HIGH_AMOUNT_THRESHOLD ≤ amount then Severity.medium
      else if MEDIUM_AMOUNT_THRESHOLD ≤ amount then Severity.low else Severity.low
    let displayName :=
      if entity = "_unknown_" then Option.none
      else some (strOrElse (group.head?.bind (fun f => f.entityName)) entity)
    let rationale := [Rationale.bankDupCount group.length, Rationale.bankDupDate date]
      ++ (if currencyFalsy currency then []
          else [Rationale.bankDupAmountEach (currency.getD "") amount,
                Rationale.bankDupOvercharge (currency.getD "") impact])
    let confidence := listMinQ (group.map (fun f => f.confidence)) * (3/4)
    let estats : EvidenceStats :=
      { count := group.length, dateRange := some (date, date),
        medianAmount := some amount, currency := currency,
        sourceReferences := group.map (fun f => f.sourceReference) }
    let issue : ProposedIssue :=
      { issueType := "duplicate_charge", severity := severity, confidence := confidence,
        impactMin := some impact, impactMax := some impact, currency := currency,
        rationale := rationale, evidenceFactIds := group.map (fun f => f.id),
        entityName := displayName, evidenceStats := some estats }
    some issue

def detectBankDuplicateCharges (facts : List FactRecord) : List ProposedIssue :=
  let qualifying := facts.filter (fun f =>
    f.direction == "outflow" && f.clearingStatus == "cleared" &&
    f.dateValue.isSome && f.amountValue.isSome)
  if qualifying.length < 2 then []
  else (groupByKey (fun f => (getEntityKey f, f.dateValue.getD 0, f.amountValue.getD 0))
    qualifying).filterMap bankDupGroupIssue

/-! ### `detectUnusualSpike` -/

def SPIKE_MIN_HISTORY : Nat := 6
def SPIKE_MULTIPLIER : ℚ := 5/2
def HIGH_SPIKE_THRESHOLD : ℚ := 200

def spikeGroupIssue (g : String × List FactRecord) : Option ProposedIssue :=
  let entityKey := g.1
  let entityFacts := g.2
  if entityFacts.length < SPIKE_MIN_HISTORY + 1 then none
  else
    let sorted := sortFactsByDate entityFacts
    let history := sorted.take (sorted.length - 1)
    let recentCharge := sorted.getLast?
    let historyAmounts := history.map (fun f => |f.amountValue.getD 0|)
    let historyMedian := medianQ historyAmounts
    let recentAmount := |(recentCharge.bind (fun f => f.amountValue)).getD 0|
    if historyMedian = 0 then none
    else
      let multiplier := recentAmount / historyMedian
      if multiplier < SPIKE_MULTIPLIER then none
      else
        let spikeAmount := recentAmount - historyMedian
        let currency := recentCharge.bind (fun f => f.amountCurrency)
        let severity := if HIGH_SPIKE_THRESHOLD ≤ spikeAmount then Severity.high else Severity.medium
        let displayName := strOrElse (sorted.head?.bind (fun f => f.entityName)) entityKey
        -- `sorted.slice(-4)` (entityFacts.length ≥ 7, so exactly 4)
        let recentContext := sorted.drop (sorted.length - 4)
        let rationale := [Rationale.spikeRecentCharge currency recentAmount multiplier,
          Rationale.spikeHistoricalMedian currency historyMedian history.length,
          Rationale.spikeDate ((recentCharge.bind (fun f => f.dateValue)).getD 0)]
          ++ (if currencyFalsy currency then []
              else [Rationale.spikeAboveTypical (currency.getD "") spikeAmount])
        -- `Math.min(0.5 + (history.length / 20) * 0.3, 0.85)`
        let confidence := min ((1/2) + ((history.length : ℚ) / 20) * (3/10)) (85/100)
        let estats : EvidenceStats :=
          { count := entityFacts.length,
            dateRange := some ((sorted.head?.bind (fun f => f.dateValue)).getD 0,
            (recentCharge.bind (fun f => f.dateValue)).getD 0),
            medianAmount := some historyMedian, currency := currency,
            sourceReferences := recentContext.map (fun f => f.sourceReference) }
        let issue : ProposedIssue :=
          { issueType := "unusual_spike", severity := severity, confidence := confidence,
            impactMin := some spikeAmount, impactMax := some spikeAmount,
            currency := currency, rationale := rationale,
            evidenceFactIds := recentContext.map (fun f => f.id),
            entityName := some displayName, evidenceStats := some estats }
        some issue

def detectUnusualSpike (facts : List FactRecord) : List ProposedIssue :=
  let eligible := facts.filter (fun f =>
    f.direction == "outflow" && f.clearingStatus == "cleared" &&
    f.dateValue.isSome && f.amountValue.isSome &&
    !(isNonMerchantTransaction (some (getEntityKey f)) Option.none))
  (groupByKey getEntityKey eligible).filterMap spikeGroupIssue

/-! ### `detectNewRecurringCharge` -/

def RECENT_DAYS_THRESHOLD : Int := 60
def NEWREC_MIN_OCCURRENCES : Nat := 3
def HIGH_ANNUAL_THRESHOLD : ℚ := 500

def newRecurringGroupIssue (derived : List (String × RecurrenceClassification))
    (endDate : Int) (g : String × List FactRecord) : Option ProposedIssue :=
  let entityKey := g.1
  let entityFacts := g.2
  -- `if (!classification?.isMonthly || classification.evidenceCount < MIN_OCCURRENCES)`
  match alistGet derived entityKey with
  | none => none
  | some cl =>
    if !cl.isMonthly || cl.evidenceCount < NEWREC_MIN_OCCURRENCES then none
    else
      let sorted := sortFactsByDate entityFacts
      let firstDate := (sorted.head?.bind (fun f => f.dateValue)).getD 0
      -- `daysBetween` here is signed: `Math.round((end - first) / day)`
      let daysSinceFirst := endDate - firstDate
      if RECENT_DAYS_THRESHOLD < daysSinceFirst then none
      else
        let medianAmount := cl.medianAmount
        let currency := sorted.head?.bind (fun f => f.amountCurrency)
        -- `medianAmount ? medianAmount * 12 : null` (0 is falsy)
        let annualAmount := match medianAmount with
          | some m => if m = 0 then Option.none else some (m * 12)
          | none => Option.none
        -- `annualAmount && annualAmount > 500 ? "high" : "medium"`
        let severity := match annualAmount with
          | some a => if HIGH_ANNUAL_THRESHOLD < a then Severity.high else Severity.medium
          | none => Severity.medium
        let tierNote := if cl.tier = RecurrenceTier.strict then Rationale.derivedStrictNote
          else Rationale.derivedLikelyNote
        let displayName := strOrElse (sorted.head?.bind (fun f => f.entityName)) entityKey
        let rationale := [Rationale.newRecurringStarted daysSinceFirst,
            Rationale.occurrencesDetected cl.evidenceCount, tierNote]
          -- `if (medianAmount !== null && currency)`
          ++ (if medianAmount.isSome && !(currencyFalsy currency) then
                [Rationale.typicalAmount (currency.getD "") (medianAmount.getD 0)]
                ++ (if annualAmount.isSome then
                      [Rationale.annualizedAmount (currency.getD "") (annualAmount.getD 0)]
                    else [])
              else [])
        let estats : EvidenceStats :=
          { count := cl.evidenceCount,
            dateRange := some (firstDate, (sorted.getLast?.bind (fun f => f.dateValue)).getD 0),
            medianAmount := cl.medianAmount, currency := currency,
            sourceReferences := sorted.map (fun f => f.sourceReference) }
        let issue : ProposedIssue :=
          { issueType := "new_recurring_charge", severity := severity,
            confidence := cl.confidence, impactMin := medianAmount, impactMax := medianAmount,
            currency := currency, rationale := rationale,
            evidenceFactIds := sorted.map (fun f => f.id),
            entityName := some displayName, evidenceStats := some estats }
        some issue

def detectNewRecurringCharge (facts : List FactRecord)
    (derivedRecurrence : List (String × RecurrenceClassification))
    (datasetEndDate : Option Int) : List ProposedIssue :=
  -- dataset end date: the latest date among the facts (`.sort()` on ISO
  -- strings is chronological), unless supplied
  let endDate : Option Int := match datasetEndDate with
    | some e => some e
    | none => (sSort (fun a b => decide (a < b))
        ((facts.filter (fun f => f.dateValue.isSome)).map (fun f => f.dateValue.getD 0))).getLast?
  match endDate with
  | none => []
  | some e =>
    let eligible := facts.filter (fun f =>
      f.direction == "outflow" && f.clearingStatus == "cleared" &&
      f.dateValue.isSome && f.amountValue.isSome &&
      !(isNonMerchantTransaction (some (getEntityKey f)) Option.none))
    (groupByKey getEntityKey eligible).filterMap (newRecurringGroupIssue derivedRecurrence e)

/-! ### `detectPriceCreep` -/

def CREEP_MIN_OCCURRENCES : Nat := 4
def PRICE_INCREASE_THRESHOLD : ℚ := 3/20
def BASELINE_STABILITY_THRESHOLD : ℚ := 1/10
def HIGH_DELTA_ANNUAL_THRESHOLD : ℚ := 100

def priceCreepGroupIssue (derived : List (String × RecurrenceClassification))
    (g : String × List FactRecord) : Option ProposedIssue :=
  let entityKey := g.1
  let entityFacts := g.2
  let classification := alistGet derived entityKey
  if entityFacts.length < CREEP_MIN_OCCURRENCES then none
  else
    let sorted := sortFactsByDate entityFacts
    let baseline := sorted.take (sorted.length - 1)
    let lastOccurrence := sorted.getLast?
    let baselineAmounts := baseline.map (fun f => |f.amountValue.getD 0|)
    let baselineMedian := medianQ baselineAmounts
    let lastAmount := |(lastOccurrence.bind (fun f => f.amountValue)).getD 0|
    if baselineMedian = 0 then none
    else
      let isBaselineStable := baselineAmounts.all (fun amount =>
        decide (|amount - baselineMedian| / baselineMedian ≤ BASELINE_STABILITY_THRESHOLD))
      if !isBaselineStable then none
      else
        let percentIncrease := (lastAmount - baselineMedian) / baselineMedian
        if percentIncrease < PRICE_INCREASE_THRESHOLD then none
        else
          let monthlyDelta := lastAmount - baselineMedian
          let annualDelta := monthlyDelta * 12
          let currency := lastOccurrence.bind (fun f => f.amountCurrency)
          let severity := if HIGH_DELTA_ANNUAL_THRESHOLD < annualDelta then Severity.high
            else Severity.medium
          let displayName := strOrElse (sorted.head?.bind (fun f => f.entityName)) entityKey
          let rationale :=
            [Rationale.creepLastCharge currency lastAmount (percentIncrease * 100),
             Rationale.creepBaseline currency baselineMedian baseline.length,
             Rationale.creepBaselineStable]
            ++ (if (classification.map (fun c => c.isMonthly)).getD false then
                  [Rationale.monthlyCadenceDerived] else [])
            ++ (if currencyFalsy currency then []
                else [Rationale.creepAnnualized (currency.getD "") annualDelta])
          -- `classification?.confidence ?? 0.6`
          let baseConfidence := (classification.map (fun c => c.confidence)).getD (3/5)
          let evidenceBoost := min ((entityFacts.length : ℚ) / 6) 1 * (1/5)
          let confidence := min (baseConfidence + evidenceBoost) (19/20)
          let estats : EvidenceStats :=
            { count := entityFacts.length,
              dateRange := some ((sorted.head?.bind (fun f => f.dateValue)).getD 0,
              (lastOccurrence.bind (fun f => f.dateValue)).getD 0),
              medianAmount := some baselineMedian, currency := currency,
              sourceReferences := sorted.map (fun f => f.sourceReference) }
          let issue : ProposedIssue :=
            { issueType := "price_creep", severity := severity, confidence := confidence,
              impactMin := some annualDelta, impactMax := some annualDelta,
              currency := currency, rationale := rationale,
              evidenceFactIds := sorted.map (fun f => f.id),
              entityName := some displayName, evidenceStats := some estats }
          some issue

def detectPriceCreep (facts : List FactRecord)
    (derivedRecurrence : List (String × RecurrenceClassification)) : List ProposedIssue :=
  let eligible := facts.filter (fun f =>
    f.direction == "outflow" && f.clearingStatus == "cleared" &&
    f.dateValue.isSome && f.amountValue.isSome &&
    !(isNonMerchantTransaction (some (getEntityKey f)) Option.none))
  (groupByKey getEntityKey eligible).filterMap (priceCreepGroupIssue derivedRecurrence)

/-! ## Pruning / ranking engine (`pruneIssues.ts`) -/

structure PruneOptions where
  maxIssues : Nat
  maxPerEntity : Nat
  allowLowSeverity : Bool
  minEvidenceByType : List (String × Nat)
deriving DecidableEq

/-- `Partial<PruneOptions>`: absent fields are `Option.none`. -/
structure PartialPruneOptions where
  maxIssues : Option Nat
  maxPerEntity : Option Nat
  allowLowSeverity : Option Bool
  minEvidenceByType : Option (List (String × Nat))
deriving DecidableEq

def emptyPruneOptions : PartialPruneOptions :=
  { maxIssues := none, maxPerEntity := none, allowLowSeverity := none,
    minEvidenceByType := none }

def defaultMinEvidenceByType : List (String × Nat) :=
  [("unpaid_invoice_aging", 1), ("recurring_payment_gap", 3), ("amount_drift", 4),
   ("duplicate_charge", 2), ("new_recurring_charge", 3), ("price_creep", 4),
   ("unusual_spike", 6)]

def DEFAULT_PRUNE_OPTIONS : PruneOptions :=
  { maxIssues := 8, maxPerEntity := 2, allowLowSeverity := true,
    minEvidenceByType := defaultMinEvidenceByType }

/-- `BANK_MODE_PRUNE_OPTIONS : Partial<PruneOptions>` sets every field (the
`minEvidenceByType` literal is identical to the default one). -/
def BANK_MODE_PRUNE_OPTIONS : PartialPruneOptions :=
  { maxIssues := some 8, maxPerEntity := some 1, allowLowSeverity := some true,
    minEvidenceByType := some defaultMinEvidenceByType }

def SEVERITY_WEIGHT : Severity → ℚ
  | .high => 3
  | .medium => 2
  | .low => 1

/-- `calculateScore`.  The source's impact term is
`impact > 0 ? Math.log10(impact + 1) : 0`, whose value is irrational; the
function `fun impact => Math.log10(impact + 1)` is abstracted as the
parameter `logTerm`, because every property verified in this file holds
for every choice of it (no claim depends on the relative order of issues
with distinct scores). -/
def calculateScore (logTerm : ℚ → ℚ) (issue : ProposedIssue) : ℚ :=
  let severityScore := SEVERITY_WEIGHT issue.severity * 10
  let confidenceScore := issue.confidence * 5
  -- `issue.impactMin ?? issue.impactMax ?? 0`
  let impact := (issue.impactMin.orElse (fun _ => issue.impactMax)).getD 0
  let impactScore := if 0 < impact then logTerm impact else 0
  let evidenceScore := (issue.evidenceFactIds.length : ℚ) * (1/5)
  severityScore + confidenceScore + impactScore + evidenceScore

/-- Stage 1: stable sort by score, descending. -/
def sortIssuesByScore (logTerm : ℚ → ℚ) (issues : List ProposedIssue) :
    List ProposedIssue :=
  sSort (fun y x => decide (calculateScore logTerm x < calculateScore logTerm y)) issues

/-- Stage 2: evidence gate (`minEvidenceByType[issue.issueType] ?? 1`). -/
def filterLowEvidence (issues : List ProposedIssue)
    (minEvidenceByType : List (String × Nat)) : List ProposedIssue :=
  issues.filter (fun issue =>
    let minEvidence := (alistGet minEvidenceByType issue.issueType).getD 1
    decide (minEvidence ≤ issue.evidenceFactIds.length))

/-- Dedup key: `` `${issue.entityName ?? "_unknown_"}|${issue.issueType}` ``
(embedded as the pair). -/
def dedupKey (issue : ProposedIssue) : String × String :=
  (issue.entityName.getD "_unknown_", issue.issueType)

def dedupAux (seen : List (String × String)) :
    List ProposedIssue → List ProposedIssue
  | [] => []
  | issue :: rest =>
      if seen.contains (dedupKey issue) then dedupAux seen rest
      else issue :: dedupAux (dedupKey issue :: seen) rest

/-- Stage 3: keep the first (highest-scored) issue per (entity, issueType). -/
def deduplicateByEntityAndDetector (issues : List ProposedIssue) : List ProposedIssue :=
  dedupAux [] issues

def alistSet {κ α : Type} [BEq κ] : List (κ × α) → κ → α → List (κ × α)
  | [], k, v => [(k, v)]
  | (k', v') :: rest, k, v =>
      if k' == k then (k, v) :: rest else (k', v') :: alistSet rest k v

def capAux (counts : List (String × Nat)) (maxPerEntity : Nat) :
    List ProposedIssue → List ProposedIssue
  | [] => []
  | issue :: rest =>
      let entityKey := issue.entityName.getD "_unknown_"
      let currentCount := (alistGet counts entityKey).getD 0
      if currentCount < maxPerEntity then
        issue :: capAux (alistSet counts entityKey (currentCount + 1)) maxPerEntity rest
      else capAux counts maxPerEntity rest

/-- Stage 4: at most `maxPerEntity` issues per entity, in list order. -/
def capPerEntity (issues : List ProposedIssue) (maxPerEntity : Nat) :
    List ProposedIssue :=
  capAux [] maxPerEntity issues

/-- Stage 5: drop low-severity issues when not allowed, unless the non-low
ones cannot fill the `maxIssues` quota. -/
def filterLowSeverityIfNeeded (issues : List ProposedIssue)
    (allowLowSeverity : Bool) (maxIssues : Nat) : List ProposedIssue :=
  if allowLowSeverity then issues
  else
    let nonLow := issues.filter (fun i => i.severity != Severity.low)
    if maxIssues ≤ nonLow.length then nonLow else issues

/-- Stage 6: total cap. -/
def capIssues (issues : List ProposedIssue) (maxIssues : Nat) : List ProposedIssue :=
  issues.take maxIssues

structure PruneResult where
  issues : List ProposedIssue
  totalBeforePrune : Nat
  droppedLowEvidence : Nat
  droppedDuplicates : Nat
  droppedPerEntityCap : Nat
  droppedLowSeverity : Nat
  droppedByCap : Nat
  wasCapped : Bool
deriving DecidableEq

/-- `{ ...DEFAULT_PRUNE_OPTIONS, ...options }` -/
def mergeWithDefaults (options : PartialPruneOptions) : PruneOptions :=
  { maxIssues := options.maxIssues.getD DEFAULT_PRUNE_OPTIONS.maxIssues,
    maxPerEntity := options.maxPerEntity.getD DEFAULT_PRUNE_OPTIONS.maxPerEntity,
    allowLowSeverity := options.allowLowSeverity.getD DEFAULT_PRUNE_OPTIONS.allowLowSeverity,
    minEvidenceByType := options.minEvidenceByType.getD DEFAULT_PRUNE_OPTIONS.minEvidenceByType }

def pruneIssues (logTerm : ℚ → ℚ) (issues : List ProposedIssue)
    (options : PartialPruneOptions) : PruneResult :=
  let opts := mergeWithDefaults options
  let totalBeforePrune := issues.length
  let sorted := sortIssuesByScore logTerm issues
  let afterEvidenceFilter := filterLowEvidence sorted opts.minEvidenceByType
  let droppedLowEvidence := sorted.length - afterEvidenceFilter.length
  let afterDedup := deduplicateByEntityAndDetector afterEvidenceFilter
  let droppedDuplicates := afterEvidenceFilter.length - afterDedup.length
  let afterEntityCap := capPerEntity afterDedup opts.maxPerEntity
  let droppedPerEntityCap := afterDedup.length - afterEntityCap.length
  let afterLowSeverityFilter :=
    filterLowSeverityIfNeeded afterEntityCap opts.allowLowSeverity opts.maxIssues
  let droppedLowSeverity := afterEntityCap.length - afterLowSeverityFilter.length
  let afterCap := capIssues afterLowSeverityFilter opts.maxIssues
  let droppedByCap := afterLowSeverityFilter.length - afterCap.length
  { issues := afterCap, totalBeforePrune := totalBeforePrune,
    droppedLowEvidence := droppedLowEvidence, droppedDuplicates := droppedDuplicates,
    droppedPerEntityCap := droppedPerEntityCap, droppedLowSeverity := droppedLowSeverity,
    droppedByCap := droppedByCap,
    wasCapped := decide (0 < droppedByCap) || decide (0 < droppedPerEntityCap) }

/-- The issues surviving stages 1–4 (sort, evidence gate, dedup, per-entity
cap) of `pruneIssues`, for stating claims about "issues that survived
stage 4". -/
def stage4Survivors (logTerm : ℚ → ℚ) (issues : List ProposedIssue)
    (options : PartialPruneOptions) : List ProposedIssue :=
  let opts := mergeWithDefaults options
  capPerEntity
    (deduplicateByEntityAndDetector
      (filterLowEvidence (sortIssuesByScore logTerm issues) opts.minEvidenceByType))
    opts.maxPerEntity

/-! ## `runAnalysis` (top-level pipeline) -/

structure AnalysisOptions where
  prune : PartialPruneOptions
  forceScanMode : Option ScanMode
deriving DecidableEq

def defaultAnalysisOptions : AnalysisOptions :=
  { prune := emptyPruneOptions, forceScanMode := none }

structure PruneStats where
  totalBeforePrune : Nat
  droppedLowEvidence : Nat
  droppedDuplicates : Nat
  droppedPerEntityCap : Nat
  droppedLowSeverity : Nat
  droppedByCap : Nat
  wasCapped : Bool
  maxIssues : Nat
deriving DecidableEq

/-- The analysis result.  `notFlagged` (transparency strings),
`bankInsights` and `bankDiagnostics` (informational aggregates) do not
affect `issues` and are referenced by no claim; they are omitted. -/
structure ExtendedAnalysisResult where
  issues : List ProposedIssue
  scanMode : ScanMode
  pruneStats : PruneStats
deriving DecidableEq

/-- `{ ...base, ...override }` on two `Partial<PruneOptions>` values. -/
def mergePartial (base override : PartialPruneOptions) : PartialPruneOptions :=
  { maxIssues := override.maxIssues.orElse (fun _ => base.maxIssues),
    maxPerEntity := override.maxPerEntity.orElse (fun _ => base.maxPerEntity),
    allowLowSeverity := override.allowLowSeverity.orElse (fun _ => base.allowLowSeverity),
    minEvidenceByType := override.minEvidenceByType.orElse (fun _ => base.minEvidenceByType) }

/-- The raw candidate list of the bank branch of `runAnalysis` (ordered as
pushed: new-recurring, price-creep, duplicates, spikes; insights and
diagnostics contribute no issues). -/
def bankRawIssues (facts : List FactRecord)
    (derivedRecurrence : List (String × RecurrenceClassification)) : List ProposedIssue :=
  detectNewRecurringCharge facts derivedRecurrence Option.none
  ++ detectPriceCreep facts derivedRecurrence
  ++ detectBankDuplicateCharges facts
  ++ detectUnusualSpike facts

/-- `runAnalysis` lines 147–159: `{ ...BANK_MODE_PRUNE_OPTIONS, ...prune }`,
then `allowLowSeverity := false` whenever the raw candidate list already
holds ≥ 3 non-low issues. -/
def bankAdjustedPruneOptions (rawIssues : List ProposedIssue)
    (userPrune : PartialPruneOptions) : PartialPruneOptions :=
  let po := mergePartial BANK_MODE_PRUNE_OPTIONS userPrune
  let nonLowCount := (rawIssues.filter (fun i => i.severity != Severity.low)).length
  if 3 ≤ nonLowCount then { po with allowLowSeverity := some false } else po

def mkPruneStats (pruneResult : PruneResult) (maxIssues : Nat) : PruneStats :=
  { totalBeforePrune := pruneResult.totalBeforePrune,
    droppedLowEvidence := pruneResult.droppedLowEvidence,
    droppedDuplicates := pruneResult.droppedDuplicates,
    droppedPerEntityCap := pruneResult.droppedPerEntityCap,
    droppedLowSeverity := pruneResult.droppedLowSeverity,
    droppedByCap := pruneResult.droppedByCap,
    wasCapped := pruneResult.wasCapped,
    maxIssues := maxIssues }

/-- `runAnalysis(facts, options)`.  `today` is the epoch day the source
takes from `new Date()` inside `detectUnpaidInvoiceAging`; `logTerm` is the
abstracted log-impact term of `calculateScore`.  The billing branch passes
`{ derivedRecurrence }` to both gap and drift detection; `detectAmountDrift`
declares no second parameter, so JavaScript ignores the argument. -/
def runAnalysis (logTerm : ℚ → ℚ) (today : Int) (facts : List FactRecord)
    (options : AnalysisOptions) : ExtendedAnalysisResult :=
  let scanMode := options.forceScanMode.getD (detectScanMode facts)
  let derivedRecurrence := classifyMonthlyByEntity facts
  if scanMode = ScanMode.bank then
    let rawIssues := bankRawIssues facts derivedRecurrence
    let pruneOptions := bankAdjustedPruneOptions rawIssues options.prune
    let pruneResult := pruneIssues logTerm rawIssues pruneOptions
    { issues := pruneResult.issues, scanMode := scanMode,
      pruneStats := mkPruneStats pruneResult (pruneOptions.maxIssues.getD 8) }
  else
    let rawIssues :=
      detectUnpaidInvoiceAging today facts DEFAULT_AGING_DAYS
      ++ detectRecurringPaymentGap facts (some derivedRecurrence)
      ++ detectAmountDrift facts
      ++ detectDuplicateCharges facts
    let pruneResult := pruneIssues logTerm rawIssues options.prune
    { issues := pruneResult.issues, scanMode := scanMode,
      pruneStats := mkPruneStats pruneResult (options.prune.maxIssues.getD 8) }

/-! ## Concrete inputs used by the claim theorems -/

/-- Two cleared outflow charges with the same merchant, day and amount but a
null `amountCurrency` (C1). -/
def c1Fact (id : String) : FactRecord :=
  { id := id, factType := "bank_transaction", entityName := some "ACME",
    entityRaw := some "ACME", entityCanonical := some "ACME",
    amountValue := some 50, amountCurrency := none, dateValue := some 10,
    dateType := none, status := "unknown", recurrence := "unknown",
    sourceReference := "r", confidence := 9/10, direction := "outflow",
    clearingStatus := "cleared" }

def c1Facts : List FactRecord := [c1Fact "d1", c1Fact "d2"]

/-- A list of unpaid-invoice facts with consistent currency for the C1
witness. -/
def c1GapFact (id : String) (d : Int) : FactRecord :=
  { id := id, factType := "payment", entityName := some "ACME",
    entityRaw := none, entityCanonical := none,
    amountValue := some 100, amountCurrency := some "USD", dateValue := some d,
    dateType := none, status := "paid", recurrence := "monthly",
    sourceReference := "r", confidence := 9/10, direction := "unknown",
    clearingStatus := "unknown" }

def c1GapFacts : List FactRecord := [c1GapFact "p1" 0, c1GapFact "p2" 30]

/-- Six cleared outflow charges for one merchant: three same-day duplicate
pairs of 150 at days 0, 40, 80 (C2).  The bank duplicate detector emits
three medium issues for the same (entity, issueType) pair; the dedup stage
keeps one. -/
def c2Fact (id : String) (d : Int) : FactRecord :=
  { id := id, factType := "bank_transaction", entityName := some "ACME",
    entityRaw := some "ACME", entityCanonical := some "ACME",
    amountValue := some 150, amountCurrency := some "USD", dateValue := some d,
    dateType := none, status := "unknown", recurrence := "unknown",
    sourceReference := "r", confidence := 9/10, direction := "outflow",
    clearingStatus := "cleared" }

def c2Facts : List FactRecord :=
  [c2Fact "a1" 0, c2Fact "a2" 0, c2Fact "b1" 40, c2Fact "b2" 40,
   c2Fact "c1" 80, c2Fact "c2" 80]

/-- A paid payment whose explicit recurrence is `"unknown"` (unset), for an
entity whose derived classification says monthly (C3). -/
def c3Fact : FactRecord :=
  { id := "u1", factType := "payment", entityName := some "GYM",
    entityRaw := none, entityCanonical := none,
    amountValue := some 50, amountCurrency := some "USD", dateValue := some 0,
    dateType := none, status := "paid", recurrence := "unknown",
    sourceReference := "r", confidence := 9/10, direction := "outflow",
    clearingStatus := "cleared" }

def c3Derived : List (String × RecurrenceClassification) :=
  [("GYM", { isMonthly := true, tier := RecurrenceTier.strict, confidence := 9/10,
             evidenceCount := 3, medianAmount := some 50, intervalStats := none })]

/-- The spec's end-to-end scenario (C4): five paid ACME payments of 8500
USD, explicitly monthly, dated at days `0, g₁, g₁+g₂, g₁+g₂+g₃` and then
92 days after the fourth. -/
def c4Fact (id : String) (d : Int) : FactRecord :=
  { id := id, factType := "payment", entityName := some "ACME",
    entityRaw := none, entityCanonical := none,
    amountValue := some 8500, amountCurrency := some "USD", dateValue := some d,
    dateType := none, status := "paid", recurrence := "monthly",
    sourceReference := "r", confidence := 9/10, direction := "unknown",
    clearingStatus := "unknown" }

def c4Facts (g1 g2 g3 : Int) : List FactRecord :=
  [c4Fact "p1" 0, c4Fact "p2" g1, c4Fact "p3" (g1 + g2), c4Fact "p4" (g1 + g2 + g3),
   c4Fact "p5" (g1 + g2 + g3 + 92)]

/-- Four explicitly monthly payments of amount 0 at 30-day spacing: the
prior-amounts median is 0, the division-by-zero case of C5. -/
def c5Fact (id : String) (d : Int) : FactRecord :=
  { id := id, factType := "payment", entityName := some "ZED",
    entityRaw := none, entityCanonical := none,
    amountValue := some 0, amountCurrency := some "USD", dateValue := some d,
    dateType := none, status := "paid", recurrence := "monthly",
    sourceReference := "r", confidence := 9/10, direction := "unknown",
    clearingStatus := "unknown" }

def c5Facts : List FactRecord :=
  [c5Fact "z1" 0, c5Fact "z2" 30, c5Fact "z3" 60, c5Fact "z4" 90]

/-- A qualifying (cleared outflow) bank fact for the recurrence-tiering
scenario of C7, parameterized by spacing and amount. -/
def c7Fact (id : String) (d : Int) (a : ℚ) : FactRecord :=
  { id := id, factType := "bank_transaction", entityName := some "GYM",
    entityRaw := some "GYM", entityCanonical := some "GYM",
    amountValue := some a, amountCurrency := some "USD", dateValue := some d,
    dateType := none, status := "unknown", recurrence := "unknown",
    sourceReference := "r", confidence := 9/10, direction := "outflow",
    clearingStatus := "cleared" }

def c7Facts (d : Int) (gap : Int) (a : ℚ) : List FactRecord :=
  [c7Fact "f1" d a, c7Fact "f2" (d + gap) a, c7Fact "f3" (d + 2 * gap) a]

/-- A one-line fact whose only varying field is `direction` (C9). -/
def c9Fact (id : String) (dir : String) : FactRecord :=
  { id := id, factType := "payment", entityName := some "E",
    entityRaw := none, entityCanonical := none,
    amountValue := some 1, amountCurrency := none, dateValue := some 0,
    dateType := none, status := "paid", recurrence := "unknown",
    sourceReference := "r", confidence := 9/10, direction := dir,
    clearingStatus := "cleared" }

/-- Exactly 80% of these five facts have a known direction. -/
def c9Facts : List FactRecord :=
  [c9Fact "1" "inflow", c9Fact "2" "outflow", c9Fact "3" "outflow",
   c9Fact "4" "inflow", c9Fact "5" "unknown"]

/-! ## Supporting lemmas -/

theorem mem_sInsert {α : Type} (before : α → α → Bool) (x a : α) (l : List α) :
    a ∈ sInsert before x l ↔ a = x ∨ a ∈ l := by
  induction l with
  | nil => simp [sInsert]
  | cons y ys ih =>
      simp only [sInsert]
      split_ifs
      · simp only [List.mem_cons, ih]
        tauto
      · simp only [List.mem_cons]

theorem mem_sSort {α : Type} (before : α → α → Bool) (a : α) (l : List α) :
    a ∈ sSort before l ↔ a ∈ l := by
  induction l with
  | nil => simp [sSort]
  | cons x xs ih => simp [sSort, mem_sInsert, ih]

theorem mem_sortFactsByDate (a : FactRecord) (l : List FactRecord) :
    a ∈ sortFactsByDate l ↔ a ∈ l := mem_sSort _ a l

theorem mem_sortIssuesByScore (logTerm : ℚ → ℚ) (a : ProposedIssue)
    (l : List ProposedIssue) : a ∈ sortIssuesByScore logTerm l ↔ a ∈ l :=
  mem_sSort _ a l

theorem mem_dedupAux (l : List ProposedIssue) :
    ∀ (seen : List (String × String)), ∀ i ∈ dedupAux seen l, i ∈ l := by
  induction l with
  | nil => intro seen i hi; simp [dedupAux] at hi
  | cons x xs ih =>
      intro seen i hi
      simp only [dedupAux] at hi
      split_ifs at hi with h
      · exact List.mem_cons_of_mem _ (ih seen i hi)
      · rcases List.mem_cons.mp hi with rfl | hmem
        · exact List.mem_cons_self _ _
        · exact List.mem_cons_of_mem _ (ih _ i hmem)

theorem mem_capAux (maxPerEntity : Nat) (l : List ProposedIssue) :
    ∀ (counts : List (String × Nat)), ∀ i ∈ capAux counts maxPerEntity l, i ∈ l := by
  induction l with
  | nil => intro counts i hi; simp [capAux] at hi
  | cons x xs ih =>
      intro counts i hi
      simp only [capAux] at hi
      split_ifs at hi with h
      · rcases List.mem_cons.mp hi with rfl | hmem
        · exact List.mem_cons_self _ _
        · exact List.mem_cons_of_mem _ (ih _ i hmem)
      · exact List.mem_cons_of_mem _ (ih _ i hi)

theorem mem_filterLowSeverityIfNeeded (issues : List ProposedIssue)
    (allowLowSeverity : Bool) (maxIssues : Nat) :
    ∀ i ∈ filterLowSeverityIfNeeded issues allowLowSeverity maxIssues, i ∈ issues := by
  intro i hi
  simp only [filterLowSeverityIfNeeded] at hi
  split_ifs at hi
  · exact hi
  · exact (List.mem_filter.mp hi).1
  · exact hi

/-- Every final issue of `pruneIssues` survived the stage-2 evidence gate. -/
theorem pruneIssues_mem_evidence_gate (logTerm : ℚ → ℚ)
    (issues : List ProposedIssue) (o : PartialPruneOptions) :
    ∀ i ∈ (pruneIssues logTerm issues o).issues,
      i ∈ filterLowEvidence (sortIssuesByScore logTerm issues)
        (mergeWithDefaults o).minEvidenceByType := by
  intro i hi
  simp only [pruneIssues] at hi
  have h1 := List.mem_of_mem_take hi
  have h2 := mem_filterLowSeverityIfNeeded _ _ _ i h1
  have h3 := mem_capAux _ _ _ i h2
  exact mem_dedupAux _ _ i h3

theorem mem_filterLowEvidence (issues : List ProposedIssue)
    (m : List (String × Nat)) (i : ProposedIssue) :
    i ∈ filterLowEvidence issues m →
      i ∈ issues ∧ (alistGet m i.issueType).getD 1 ≤ i.evidenceFactIds.length := by
  intro hi
  have := List.mem_filter.mp hi
  exact ⟨this.1, by simpa using this.2⟩

/-- A fact list whose currency-presence filter kept everything has all
currencies present. -/
theorem all_of_filter_length {p : FactRecord → Bool} {l : List FactRecord}
    (h : (l.filter p).length = l.length) : ∀ f ∈ l, p f = true :=
  List.filter_length_eq_length.mp h

/-- If `getConsistentCurrency` returns `some c`, every present currency
among the facts equals `c`. -/
theorem consistentCurrency_unique (facts : List FactRecord) (c : String)
    (h : getConsistentCurrency facts = some c) :
    ∀ f ∈ facts, ∀ d : String, f.amountCurrency = some d → d = c := by
  simp only [getConsistentCurrency] at h
  by_cases h0 : (facts.filterMap (fun f => f.amountCurrency)).length = 0
  · rw [if_pos h0] at h
    simp at h
  · rw [if_neg h0] at h
    by_cases h1 : (facts.filterMap (fun f => f.amountCurrency)).dedup.length ≠ 1
    · rw [if_pos h1] at h
      simp at h
    rw [if_neg h1] at h
    push_neg at h1
    obtain ⟨a, ha⟩ := List.length_eq_one.mp h1
    intro f hf d hd
    have hdmem : d ∈ facts.filterMap (fun f => f.amountCurrency) :=
      List.mem_filterMap.mpr ⟨f, hf, hd⟩
    have hda : d = a := by
      have : d ∈ (facts.filterMap (fun f => f.amountCurrency)).dedup :=
        List.mem_dedup.mpr hdmem
      rw [ha] at this
      simpa using this
    have hcmem : c ∈ facts.filterMap (fun f => f.amountCurrency) :=
      List.mem_of_mem_head? (Option.mem_def.mpr h)
    have hca : c = a := by
      have : c ∈ (facts.filterMap (fun f => f.amountCurrency)).dedup :=
        List.mem_dedup.mpr hcmem
      rw [ha] at this
      simpa using this
    rw [hda, hca]

/-- From the two guards of an impact calculator — all currencies present and
`getConsistentCurrency` not falsy — every fact carries the same currency. -/
theorem shared_currency_of_guards (facts : List FactRecord)
    (hpres : (facts.filter (fun f => f.amountCurrency.isSome)).length = facts.length)
    (hcur : ¬ currencyFalsy (getConsistentCurrency facts) = true) :
    ∃ c : String, ∀ f ∈ facts, f.amountCurrency = some c := by
  obtain ⟨c, hc⟩ : ∃ c, getConsistentCurrency facts = some c := by
    cases hG : getConsistentCurrency facts with
    | none => exact absurd (by simp [currencyFalsy, hG]) hcur
    | some c => exact ⟨c, rfl⟩
  refine ⟨c, fun f hf => ?_⟩
  have hsome := all_of_filter_length hpres f hf
  obtain ⟨d, hd⟩ := Option.isSome_iff_exists.mp hsome
  rw [hd, consistentCurrency_unique facts c hc f hf d hd]

theorem amounts_present_of_guard (facts : List FactRecord)
    (hpres : (facts.filter (fun f => f.amountValue.isSome)).length = facts.length) :
    ∀ f ∈ facts, f.amountValue ≠ none := by
  intro f hf
  have := all_of_filter_length hpres f hf
  exact Option.isSome_iff_ne_none.mp this

theorem c7_qualifying (d g : Int) (a : ℚ) :
    (c7Facts d g a).filter isQualifyingFact = c7Facts d g a := by
  simp [c7Facts, c7Fact, isQualifyingFact, List.filter]

theorem c7_sorted (d g : Int) (a : ℚ) (hg : 0 < g) :
    sortFactsByDate (c7Facts d g a) = c7Facts d g a := by
  have h1 : decide ((d + 2 * g : Int) < d + g) = false := by
    simp
    omega
  have h2 : decide ((d + g : Int) < d) = false := by
    simp
    omega
  simp only [c7Facts, c7Fact, sortFactsByDate, sSort, sInsert, Option.getD_some, h1, h2]
  simp

theorem c7_intervals (d g : Int) (a : ℚ) (hg : 0 < g) :
    consecIntervals (c7Facts d g a) = [g, g] := by
  simp only [c7Facts, c7Fact, consecIntervals, daysBetween, Option.getD_some]
  have e1 : (((d + g - d).natAbs : Int)) = g := by omega
  have e2 : (((d + 2 * g - (d + g)).natAbs : Int)) = g := by omega
  rw [e1, e2]

theorem c7_amounts (d g : Int) (a : ℚ) :
    (c7Facts d g a).map (fun f => |f.amountValue.getD 0|) = [|a|, |a|, |a|] := by
  simp [c7Facts, c7Fact]

theorem c7_len (d g : Int) (a : ℚ) : (c7Facts d g a).length = 3 := by
  simp [c7Facts]

theorem medianQ_three_eq (x : ℚ) : medianQ [x, x, x] = x := by
  simp [medianQ, sSort, sInsert, lt_irrefl]

theorem spikeGroupIssue_type (g : String × List FactRecord) (i : ProposedIssue)
    (h : spikeGroupIssue g = some i) : i.issueType = "unusual_spike" := by
  simp only [spikeGroupIssue] at h
  repeat' split at h
  all_goals try exact Option.noConfusion h
  all_goals (injection h with h2; subst h2; rfl)

theorem spikeGroupIssue_evidence (g : String × List FactRecord) (i : ProposedIssue)
    (h : spikeGroupIssue g = some i) : i.evidenceFactIds.length ≤ 4 := by
  simp only [spikeGroupIssue] at h
  repeat' split at h
  all_goals try exact Option.noConfusion h
  all_goals (injection h with h2; subst h2)
  all_goals (simp only [List.length_map, List.length_drop]; omega)

theorem newRecurringGroupIssue_type (derived : List (String × RecurrenceClassification))
    (e : Int) (g : String × List FactRecord) (i : ProposedIssue)
    (h : newRecurringGroupIssue derived e g = some i) :
    i.issueType = "new_recurring_charge" := by
  simp only [newRecurringGroupIssue] at h
  repeat' split at h
  all_goals try exact Option.noConfusion h
  all_goals (injection h with h2; subst h2; rfl)

theorem priceCreepGroupIssue_type (derived : List (String × RecurrenceClassification))
    (g : String × List FactRecord) (i : ProposedIssue)
    (h : priceCreepGroupIssue derived g = some i) : i.issueType = "price_creep" := by
  simp only [priceCreepGroupIssue] at h
  repeat' split at h
  all_goals try exact Option.noConfusion h
  all_goals (injection h with h2; subst h2; rfl)

theorem bankDupGroupIssue_type (g : (String × Int × ℚ) × List FactRecord)
    (i : ProposedIssue) (h : bankDupGroupIssue g = some i) :
    i.issueType = "duplicate_charge" := by
  simp only [bankDupGroupIssue] at h
  repeat' split at h
  all_goals try exact Option.noConfusion h
  all_goals (injection h with h2; subst h2; rfl)

theorem dupBillingGroupIssue_type (g : (String × Int × ℚ) × List FactRecord)
    (i : ProposedIssue) (h : dupBillingGroupIssue g = some i) :
    i.issueType = "duplicate_charge" := by
  simp only [dupBillingGroupIssue] at h
  repeat' split at h
  all_goals try exact Option.noConfusion h
  all_goals (injection h with h2; subst h2; rfl)

theorem unpaidAgingGroupIssue_type (today : Int) (agingDays : ℚ)
    (g : String × List FactRecord) (i : ProposedIssue)
    (h : unpaidAgingGroupIssue today agingDays g = some i) :
    i.issueType = "unpaid_invoice_aging" := by
  simp only [unpaidAgingGroupIssue] at h
  repeat' split at h
  all_goals try exact Option.noConfusion h
  all_goals (injection h with h2; subst h2; rfl)

theorem paymentGapGroupIssue_type
    (dr : Option (List (String × RecurrenceClassification)))
    (g : String × List FactRecord) (i : ProposedIssue)
    (h : paymentGapGroupIssue dr g = some i) :
    i.issueType = "recurring_payment_gap" := by
  simp only [paymentGapGroupIssue] at h
  repeat' split at h
  all_goals try exact Option.noConfusion h
  all_goals (injection h with h2; subst h2; rfl)

theorem amountDriftGroupIssue_type (g : String × List FactRecord) (i : ProposedIssue)
    (h : amountDriftGroupIssue g = some i) : i.issueType = "amount_drift" := by
  simp only [amountDriftGroupIssue] at h
  repeat' split at h
  all_goals try exact Option.noConfusion h
  all_goals (injection h with h2; subst h2; rfl)

theorem mem_detectUnusualSpike (facts : List FactRecord) :
    ∀ i ∈ detectUnusualSpike facts,
      i.issueType = "unusual_spike" ∧ i.evidenceFactIds.length ≤ 4 := by
  intro i hi
  simp only [detectUnusualSpike] at hi
  obtain ⟨g, hg, hsome⟩ := List.mem_filterMap.mp hi
  exact ⟨spikeGroupIssue_type g i hsome, spikeGroupIssue_evidence g i hsome⟩

theorem mem_detectNewRecurringCharge (facts : List FactRecord)
    (derived : List (String × RecurrenceClassification)) (ed : Option Int) :
    ∀ i ∈ detectNewRecurringCharge facts derived ed,
      i.issueType = "new_recurring_charge" := by
  intro i hi
  simp only [detectNewRecurringCharge] at hi
  split at hi
  · exact absurd hi (List.not_mem_nil i)
  · obtain ⟨g, hg, hsome⟩ := List.mem_filterMap.mp hi
    exact newRecurringGroupIssue_type _ _ g i hsome

theorem mem_detectPriceCreep (facts : List FactRecord)
    (derived : List (String × RecurrenceClassification)) :
    ∀ i ∈ detectPriceCreep facts derived, i.issueType = "price_creep" := by
  intro i hi
  simp only [detectPriceCreep] at hi
  obtain ⟨g, hg, hsome⟩ := List.mem_filterMap.mp hi
  exact priceCreepGroupIssue_type _ g i hsome

theorem mem_detectBankDuplicateCharges (facts : List FactRecord) :
    ∀ i ∈ detectBankDuplicateCharges facts, i.issueType = "duplicate_charge" := by
  intro i hi
  simp only [detectBankDuplicateCharges] at hi
  split at hi
  · exact absurd hi (List.not_mem_nil i)
  · obtain ⟨g, hg, hsome⟩ := List.mem_filterMap.mp hi
    exact bankDupGroupIssue_type g i hsome

theorem mem_detectUnpaidInvoiceAging (today : Int) (facts : List FactRecord)
    (agingDays : ℚ) :
    ∀ i ∈ detectUnpaidInvoiceAging today facts agingDays,
      i.issueType = "unpaid_invoice_aging" := by
  intro i hi
  simp only [detectUnpaidInvoiceAging] at hi
  split at hi
  · exact absurd hi (List.not_mem_nil i)
  · obtain ⟨g, hg, hsome⟩ := List.mem_filterMap.mp hi
    exact unpaidAgingGroupIssue_type _ _ g i hsome

theorem mem_detectRecurringPaymentGap_type (facts : List FactRecord)
    (dr : Option (List (String × RecurrenceClassification))) :
    ∀ i ∈ detectRecurringPaymentGap facts dr,
      i.issueType = "recurring_payment_gap" := by
  intro i hi
  simp only [detectRecurringPaymentGap] at hi
  split at hi
  · exact absurd hi (List.not_mem_nil i)
  · obtain ⟨g, hg, hsome⟩ := List.mem_filterMap.mp hi
    exact paymentGapGroupIssue_type _ g i hsome

theorem mem_detectAmountDrift_type (facts : List FactRecord) :
    ∀ i ∈ detectAmountDrift facts, i.issueType = "amount_drift" := by
  intro i hi
  simp only [detectAmountDrift] at hi
  split at hi
  · exact absurd hi (List.not_mem_nil i)
  · obtain ⟨g, hg, hsome⟩ := List.mem_filterMap.mp hi
    exact amountDriftGroupIssue_type g i hsome

theorem mem_detectDuplicateCharges (facts : List FactRecord) :
    ∀ i ∈ detectDuplicateCharges facts, i.issueType = "duplicate_charge" := by
  intro i hi
  simp only [detectDuplicateCharges] at hi
  split at hi
  · exact absurd hi (List.not_mem_nil i)
  · obtain ⟨g, hg, hsome⟩ := List.mem_filterMap.mp hi
    exact dupBillingGroupIssue_type g i hsome

theorem bankAdjusted_minEvidence (raw : List ProposedIssue)
    (up : PartialPruneOptions) (h : up.minEvidenceByType = none) :
    (bankAdjustedPruneOptions raw up).minEvidenceByType =
      some defaultMinEvidenceByType := by
  simp only [bankAdjustedPruneOptions, mergePartial, BANK_MODE_PRUNE_OPTIONS, h]
  split_ifs <;> simp [Option.orElse]

/-- Pushing one element into its bucket preserves a per-bucket invariant. -/
theorem addToGroup_pred {κ α : Type} [BEq κ] [LawfulBEq κ] (C : α → κ → Prop)
    (k : κ) (x : α) (hx : C x k) :
    ∀ (acc : List (κ × List α)), (∀ p ∈ acc, ∀ y ∈ p.2, C y p.1) →
      ∀ p ∈ addToGroup k x acc, ∀ y ∈ p.2, C y p.1 := by
  intro acc
  induction acc with
  | nil =>
      intro _ p hp y hy
      simp only [addToGroup, List.mem_singleton] at hp
      subst hp
      simp only [List.mem_singleton] at hy
      subst hy
      exact hx
  | cons q rest ih =>
      intro hacc p hp y hy
      obtain ⟨k', ys⟩ := q
      simp only [addToGroup] at hp
      split_ifs at hp with he
      · rcases List.mem_cons.mp hp with rfl | hmem
        · rcases List.mem_append.mp hy with h1 | h2
          · exact hacc (k', ys) (List.mem_cons_self _ _) y h1
          · simp only [List.mem_singleton] at h2
            subst h2
            have hk : k' = k := eq_of_beq he
            simpa [hk] using hx
        · exact hacc p (List.mem_cons_of_mem _ hmem) y hy
      · rcases List.mem_cons.mp hp with rfl | hmem
        · exact hacc _ (List.mem_cons_self _ _) y hy
        · exact ih (fun r hr => hacc r (List.mem_cons_of_mem _ hr)) p hmem y hy

theorem groupByKey_pred {κ α : Type} [BEq κ] [LawfulBEq κ] (C : α → κ → Prop)
    (key : α → κ) :
    ∀ (xs : List α) (acc : List (κ × List α)),
      (∀ x ∈ xs, C x (key x)) → (∀ p ∈ acc, ∀ y ∈ p.2, C y p.1) →
      ∀ p ∈ xs.foldl (fun acc x => addToGroup (key x) x acc) acc, ∀ y ∈ p.2, C y p.1 := by
  intro xs
  induction xs with
  | nil =>
      intro acc _ hacc p hp y hy
      exact hacc p hp y hy
  | cons x xs ih =>
      intro acc hxs hacc p hp y hy
      simp only [List.foldl_cons] at hp
      exact ih _ (fun z hz => hxs z (List.mem_cons_of_mem _ hz))
        (addToGroup_pred C (key x) x (hxs x (List.mem_cons_self _ _)) acc hacc)
        p hp y hy

/-- Every member of a `groupByKey` bucket came from the input list and has
the bucket's key. -/
theorem groupByKey_sound {κ α : Type} [BEq κ] [LawfulBEq κ] (C : α → κ → Prop)
    (key : α → κ) (xs : List α) (h : ∀ x ∈ xs, C x (key x)) :
    ∀ p ∈ groupByKey key xs, ∀ y ∈ p.2, C y p.1 :=
  groupByKey_pred C key xs [] h (by simp)

theorem monthlyCadenceDerived_ne_format (impact : ImpactResult) :
    Rationale.monthlyCadenceDerived ≠ formatImpactRationale impact := by
  simp only [formatImpactRationale]
  split <;> simp

theorem amountDriftGroupIssue_evidence (g : String × List FactRecord)
    (i : ProposedIssue) (h : amountDriftGroupIssue g = some i) :
    i.evidenceFactIds = (sortFactsByDate g.2).map (fun p => p.id) := by
  simp only [amountDriftGroupIssue] at h
  repeat' split at h
  all_goals try exact Option.noConfusion h
  all_goals (injection h with h2; subst h2; rfl)

/-- A payment-gap issue's evidence ids are the sorted group's ids, and the
derived-cadence rationale entry is present exactly when the source's
`usedDerivedRecurrence` flag was true. -/
theorem paymentGapGroupIssue_parts
    (dr : Option (List (String × RecurrenceClassification)))
    (g : String × List FactRecord) (i : ProposedIssue)
    (h : paymentGapGroupIssue dr g = some i) :
    i.evidenceFactIds = (sortFactsByDate g.2).map (fun p => p.id) ∧
    (Rationale.monthlyCadenceDerived ∈ i.rationale ↔
      ((((dr.bind (fun d => alistGet d g.1)).map (fun c => c.isMonthly)).getD false)
        && (sortFactsByDate g.2).any (fun p => p.recurrence != "monthly")) = true) := by
  simp only [paymentGapGroupIssue] at h
  repeat' split at h
  all_goals try exact Option.noConfusion h
  all_goals (injection h with h2; subst h2)
  all_goals refine ⟨rfl, ?_⟩
  all_goals simp_all [List.mem_append, monthlyCadenceDerived_ne_format]

/-! ## Claim theorems -/

/-- C1 (amended): the strict impact rule holds for the four impact
calculators of `impact.ts` (used by the billing-mode detectors): whenever
one of them reports a non-null impact, every contributing fact has a
non-null amount (for the unpaid-aging, payment-gap and duplicate
calculators; the drift calculator's caller filters amounts itself) and all
contributing facts carry one single non-null currency.  The bank-mode
duplicate-charge and unusual-spike detectors, by contrast, compute their
impact directly from the group's amounts without any currency requirement
(see the counterexample). -/
theorem C1_impact_calculators_conservative :
    (∀ facts : List FactRecord, (calculateUnpaidInvoiceImpact facts).impactMin ≠ none →
      (∀ f ∈ facts, f.amountValue ≠ none) ∧
      ∃ c : String, ∀ f ∈ facts, f.amountCurrency = some c)
    ∧ (∀ (facts : List FactRecord) (monthsMissed : Int),
        (calculatePaymentGapImpact facts monthsMissed).impactMin ≠ none →
        (∀ f ∈ facts, f.amountValue ≠ none) ∧
        ∃ c : String, ∀ f ∈ facts, f.amountCurrency = some c)
    ∧ (∀ (facts : List FactRecord) (priorMedian recentAvg : ℚ),
        (calculateDriftImpact facts priorMedian recentAvg).impactMin ≠ none →
        ∃ c : String, ∀ f ∈ facts, f.amountCurrency = some c)
    ∧ (∀ facts : List FactRecord, (calculateDuplicateImpact facts).impactMin ≠ none →
        (∀ f ∈ facts, f.amountValue ≠ none) ∧
        ∃ c : String, ∀ f ∈ facts, f.amountCurrency = some c) := by
  refine ⟨?_, ?_, ?_, ?_⟩
  · intro facts h
    simp only [calculateUnpaidInvoiceImpact] at h
    split_ifs at h with h1 h2 h3 h4
    any_goals simp [NO_IMPACT] at h
    push_neg at h2 h3
    exact ⟨amounts_present_of_guard facts h2, shared_currency_of_guards facts h3 h4⟩
  · intro facts monthsMissed h
    simp only [calculatePaymentGapImpact] at h
    split_ifs at h with h1 h2 h3 h4 h5 h6 h7
    any_goals simp [NO_IMPACT] at h
    push_neg at h4 h5
    exact ⟨amounts_present_of_guard facts h4, shared_currency_of_guards facts h5 h6⟩
  · intro facts priorMedian recentAvg h
    simp only [calculateDriftImpact] at h
    split_ifs at h with h1 h2 h3 h4 h5
    any_goals simp [NO_IMPACT] at h
    push_neg at h3
    exact shared_currency_of_guards facts h3 h4
  · intro facts h
    simp only [calculateDuplicateImpact] at h
    split_ifs at h with h1 h2 h3 h4
    any_goals simp [NO_IMPACT] at h
    push_neg at h2 h3
    exact ⟨amounts_present_of_guard facts h2, shared_currency_of_guards facts h3 h4⟩

/-- C1 witness: the payment-gap calculator at a concrete two-payment input
with a computed impact; the conclusion gives the shared currency. -/
theorem C1_witness :
    (calculatePaymentGapImpact c1GapFacts 2).impactMin ≠ none ∧
    ((∀ f ∈ c1GapFacts, f.amountValue ≠ none) ∧
      ∃ c : String, ∀ f ∈ c1GapFacts, f.amountCurrency = some c) :=
  ⟨by decide, C1_impact_calculators_conservative.2.1 c1GapFacts 2 (by decide)⟩

/-- C7: for every start date `d` and amount `a`, three qualifying cleared
outflows for one entity at exactly 30-day intervals with identical amounts
classify as tier strict with `isMonthly = true` and confidence ≥ 0.85,
while the same three facts at 40-day intervals classify as tier none with
`isMonthly = false`. -/
theorem C7_recurrence_tiers (d : Int) (a : ℚ) :
    ((classifyEntity (c7Facts d 30 a)).tier = RecurrenceTier.strict ∧
     (classifyEntity (c7Facts d 30 a)).isMonthly = true ∧
     85/100 ≤ (classifyEntity (c7Facts d 30 a)).confidence) ∧
    ((classifyEntity (c7Facts d 40 a)).tier = RecurrenceTier.none ∧
     (classifyEntity (c7Facts d 40 a)).isMonthly = false) := by
  constructor
  · have hq := c7_qualifying d 30 a
    have hs := c7_sorted d 30 a (by norm_num)
    have hi := c7_intervals d 30 a (by norm_num)
    have ha := c7_amounts d 30 a
    have hl := c7_len d 30 a
    simp only [classifyEntity]
    rw [hq, hs, hi, ha, medianQ_three_eq, hl]
    norm_num [MIN_OCCURRENCES, MIN_VALID_INTERVALS, MONTHLY_INTERVAL_MIN,
      MONTHLY_INTERVAL_MAX, MONTHLY_INTERVAL_MIN_LOOSE, MONTHLY_INTERVAL_MAX_LOOSE,
      AMOUNT_TOLERANCE, List.filter, List.all]
  · have hq := c7_qualifying d 40 a
    have hs := c7_sorted d 40 a (by norm_num)
    have hi := c7_intervals d 40 a (by norm_num)
    have ha := c7_amounts d 40 a
    have hl := c7_len d 40 a
    simp only [classifyEntity]
    rw [hq, hs, hi, ha, medianQ_three_eq, hl]
    norm_num [MIN_OCCURRENCES, MIN_VALID_INTERVALS, MIN_OCCURRENCES_TIER2,
      MONTHLY_INTERVAL_MIN, MONTHLY_INTERVAL_MAX, MONTHLY_INTERVAL_MIN_LOOSE,
      MONTHLY_INTERVAL_MAX_LOOSE, AMOUNT_TOLERANCE, AMOUNT_TOLERANCE_LOOSE,
      List.filter, List.all, buildNoneClassification]

/-- C4: five paid payments for one entity, explicitly monthly, same
currency, amount 8500 each, the first four spaced 30–31 days apart and the
fifth 92 days after the fourth: `detectRecurringPaymentGap` returns exactly
one issue, with severity medium, `impactMin = impactMax = 17000`, and the
months-missed rationale entry computed as 2. -/
theorem C4_payment_gap_scenario (g1 g2 g3 : Int)
    (h1 : 30 ≤ g1 ∧ g1 ≤ 31) (h2 : 30 ≤ g2 ∧ g2 ≤ 31) (h3 : 30 ≤ g3 ∧ g3 ≤ 31) :
    (detectRecurringPaymentGap (c4Facts g1 g2 g3) Option.none).length = 1 ∧
    ∀ i ∈ detectRecurringPaymentGap (c4Facts g1 g2 g3) Option.none,
      i.severity = Severity.medium ∧ i.impactMin = some 17000 ∧
      i.impactMax = some 17000 ∧ Rationale.paymentsMissing 2 ∈ i.rationale := by
  have e1 : g1 = 30 ∨ g1 = 31 := by omega
  have e2 : g2 = 30 ∨ g2 = 31 := by omega
  have e3 : g3 = 30 ∨ g3 = 31 := by omega
  rcases e1 with rfl | rfl <;> rcases e2 with rfl | rfl <;> rcases e3 with rfl | rfl <;>
    decide

/-- C4 witness: the scenario at exact 30-day spacing for the first four
payments. -/
theorem C4_witness :
    ((30 ≤ (30 : Int) ∧ (30 : Int) ≤ 31) ∧
     (detectRecurringPaymentGap (c4Facts 30 30 30) Option.none).length = 1) ∧
    ∀ i ∈ detectRecurringPaymentGap (c4Facts 30 30 30) Option.none,
      i.severity = Severity.medium ∧ i.impactMin = some 17000 ∧
      i.impactMax = some 17000 ∧ Rationale.paymentsMissing 2 ∈ i.rationale :=
  ⟨⟨by decide,
    (C4_payment_gap_scenario 30 30 30 (by decide) (by decide) (by decide)).1⟩,
   (C4_payment_gap_scenario 30 30 30 (by decide) (by decide) (by decide)).2⟩

/-- C10: every unusual-spike issue carries at most 4 evidence fact ids
(the last-4 recent-context slice); the default evidence gate requires ≥ 6
for `"unusual_spike"`; and therefore, whenever `minEvidenceByType` is not
overridden, no unusual-spike issue ever reaches the final output of
`runAnalysis`, for every input fact list. -/
theorem C10_no_spike_survives_default_prune :
    (∀ facts : List FactRecord, ∀ i ∈ detectUnusualSpike facts,
        i.evidenceFactIds.length ≤ 4)
    ∧ (∀ issues : List ProposedIssue,
        ∀ i ∈ filterLowEvidence issues defaultMinEvidenceByType,
          i.issueType = "unusual_spike" → 6 ≤ i.evidenceFactIds.length)
    ∧ (∀ (logTerm : ℚ → ℚ) (today : Int) (facts : List FactRecord)
        (options : AnalysisOptions), options.prune.minEvidenceByType = none →
        ∀ i ∈ (runAnalysis logTerm today facts options).issues,
          i.issueType ≠ "unusual_spike") := by
  have hval : (alistGet defaultMinEvidenceByType "unusual_spike").getD 1 = 6 := rfl
  refine ⟨?_, ?_, ?_⟩
  · intro facts i hi
    exact (mem_detectUnusualSpike facts i hi).2
  · intro issues i hi ht
    obtain ⟨_, hlen⟩ := mem_filterLowEvidence issues _ i hi
    rw [ht, hval] at hlen
    exact hlen
  · intro logTerm today facts options hopt i hi hspike
    simp only [runAnalysis] at hi
    split at hi
    · have hg := pruneIssues_mem_evidence_gate logTerm
        (bankRawIssues facts (classifyMonthlyByEntity facts))
        (bankAdjustedPruneOptions (bankRawIssues facts (classifyMonthlyByEntity facts))
          options.prune) i hi
      obtain ⟨hs, hlen⟩ := mem_filterLowEvidence _ _ i hg
      have hmem := (mem_sortIssuesByScore logTerm i _).mp hs
      have hopt2 : (mergeWithDefaults (bankAdjustedPruneOptions
          (bankRawIssues facts (classifyMonthlyByEntity facts))
          options.prune)).minEvidenceByType = defaultMinEvidenceByType := by
        simp [mergeWithDefaults, bankAdjusted_minEvidence _ _ hopt]
      rw [hopt2, hspike, hval] at hlen
      simp only [bankRawIssues, List.mem_append] at hmem
      rcases hmem with ((h1 | h2) | h3) | h4
      · exact absurd ((mem_detectNewRecurringCharge _ _ _ i h1).symm.trans hspike)
          (by decide)
      · exact absurd ((mem_detectPriceCreep _ _ i h2).symm.trans hspike) (by decide)
      · exact absurd ((mem_detectBankDuplicateCharges _ i h3).symm.trans hspike)
          (by decide)
      · have := (mem_detectUnusualSpike _ i h4).2
        omega
    · have hg := pruneIssues_mem_evidence_gate logTerm
        (detectUnpaidInvoiceAging today facts DEFAULT_AGING_DAYS
          ++ detectRecurringPaymentGap facts (some (classifyMonthlyByEntity facts))
          ++ detectAmountDrift facts
          ++ detectDuplicateCharges facts) options.prune i hi
      obtain ⟨hs, hlen⟩ := mem_filterLowEvidence _ _ i hg
      have hmem := (mem_sortIssuesByScore logTerm i _).mp hs
      simp only [List.mem_append] at hmem
      rcases hmem with ((h1 | h2) | h3) | h4
      · exact absurd ((mem_detectUnpaidInvoiceAging _ _ _ i h1).symm.trans hspike)
          (by decide)
      · exact absurd ((mem_detectRecurringPaymentGap_type _ _ i h2).symm.trans hspike)
          (by decide)
      · exact absurd ((mem_detectAmountDrift_type _ i h3).symm.trans hspike) (by decide)
      · exact absurd ((mem_detectDuplicateCharges _ i h4).symm.trans hspike) (by decide)

/-- C10 witness: the default options leave `minEvidenceByType` unset, and
on the concrete bank-mode input `c2Facts` no final issue is an unusual
spike. -/
theorem C10_witness :
    defaultAnalysisOptions.prune.minEvidenceByType = none ∧
    ∀ i ∈ (runAnalysis (fun _ => 0) 0 c2Facts defaultAnalysisOptions).issues,
      i.issueType ≠ "unusual_spike" :=
  ⟨rfl, C10_no_spike_survives_default_prune.2.2 (fun _ => 0) 0 c2Facts
    defaultAnalysisOptions rfl⟩

/-- C3 (amended): the derived-recurrence fallback applies only when the
explicit recurrence is exactly `"one_time"` — not when it is unset or
`"unknown"` (see the counterexample): a fact is treated as monthly iff its
recurrence is `"monthly"`, or it is `"one_time"` and the derived
classification of its entity has `isMonthly = true`.  The amount-drift
detector uses only explicitly monthly facts (no fallback at all), and a
payment-gap issue carries the "Monthly cadence derived" rationale entry
exactly when some contributing fact's explicit recurrence differs from
`"monthly"` (the fact-id-uniqueness hypothesis makes evidence ids identify
facts). -/
theorem C3_derived_fallback_one_time_only :
    (∀ (f : FactRecord) (dr : List (String × RecurrenceClassification)),
      isMonthlyRecurring f (some dr) = true ↔
        (f.recurrence = "monthly" ∨
         (f.recurrence = "one_time" ∧
          ((alistGet dr (getEntityKeyCN f)).map (fun c => c.isMonthly)).getD false = true)))
    ∧ (∀ facts : List FactRecord, ∀ i ∈ detectAmountDrift facts,
        ∀ fid ∈ i.evidenceFactIds,
          ∃ f ∈ facts, f.id = fid ∧ f.recurrence = "monthly")
    ∧ (∀ (facts : List FactRecord) (dr : List (String × RecurrenceClassification)),
        (facts.map (fun f => f.id)).Nodup →
        ∀ i ∈ detectRecurringPaymentGap facts (some dr),
          (Rationale.monthlyCadenceDerived ∈ i.rationale ↔
            ∃ f ∈ facts, f.id ∈ i.evidenceFactIds ∧ f.recurrence ≠ "monthly")) := by
  refine ⟨?_, ?_, ?_⟩
  · intro f dr
    simp only [isMonthlyRecurring]
    by_cases h1 : f.recurrence = "monthly"
    · simp [h1]
    · by_cases h2 : f.recurrence = "one_time" <;> simp [h1, h2]
  · intro facts i hi fid hfid
    simp only [detectAmountDrift] at hi
    split at hi
    · exact absurd hi (List.not_mem_nil i)
    · obtain ⟨g, hg, hsome⟩ := List.mem_filterMap.mp hi
      have hev := amountDriftGroupIssue_evidence g i hsome
      rw [hev] at hfid
      obtain ⟨p, hp, hpid⟩ := List.mem_map.mp hfid
      have hp2 : p ∈ g.2 := (mem_sortFactsByDate p g.2).mp hp
      have hC := groupByKey_sound
        (fun y _ => y ∈ facts ∧ y.recurrence = "monthly") getEntityKeyCN _
        (fun x hx => by
          have hm := List.mem_filter.mp hx
          have hb := hm.2
          simp only [Bool.and_eq_true, beq_iff_eq] at hb
          exact ⟨hm.1, hb.1.1.2⟩)
        g hg p hp2
      exact ⟨p, hC.1, hpid, hC.2⟩
  · intro facts dr hnd i hi
    simp only [detectRecurringPaymentGap] at hi
    split at hi
    · exact absurd hi (List.not_mem_nil i)
    · obtain ⟨g, hg, hsome⟩ := List.mem_filterMap.mp hi
      obtain ⟨hev, hiff⟩ := paymentGapGroupIssue_parts (some dr) g i hsome
      have hsound := groupByKey_sound
        (fun y k => y ∈ facts.filter (fun f =>
            f.factType == "payment" && isMonthlyRecurring f (some dr) &&
            f.dateValue.isSome && f.status == "paid") ∧ getEntityKeyCN y = k)
        getEntityKeyCN _ (fun x hx => ⟨hx, rfl⟩) g hg
      constructor
      · intro hflag
        have husd := hiff.mp hflag
        rw [Bool.and_eq_true] at husd
        obtain ⟨hlook, hany⟩ := husd
        obtain ⟨p, hp, hpb⟩ := List.any_eq_true.mp hany
        have hp2 : p ∈ g.2 := (mem_sortFactsByDate p g.2).mp hp
        have hC := hsound p hp2
        refine ⟨p, (List.mem_filter.mp hC.1).1, ?_, ?_⟩
        · rw [hev]
          exact List.mem_map.mpr ⟨p, hp, rfl⟩
        · simpa using hpb
      · rintro ⟨f, hf, hfid, hfrec⟩
        apply hiff.mpr
        rw [Bool.and_eq_true]
        rw [hev] at hfid
        obtain ⟨p, hp, hpid⟩ := List.mem_map.mp hfid
        have hp2 : p ∈ g.2 := (mem_sortFactsByDate p g.2).mp hp
        have hC := hsound p hp2
        have hpfacts : p ∈ facts := (List.mem_filter.mp hC.1).1
        have hpeq : p = f := List.inj_on_of_nodup_map hnd hpfacts hf hpid
        subst hpeq
        have hfrec2 : p.recurrence ≠ "monthly" := hfrec
        constructor
        · have hpred := (List.mem_filter.mp hC.1).2
          simp only [Bool.and_eq_true] at hpred
          have hmon : isMonthlyRecurring p (some dr) = true := hpred.1.1.2
          simp only [isMonthlyRecurring] at hmon
          have hne : (p.recurrence == "monthly") = false := by
            simpa using hfrec2
          rw [hne] at hmon
          simp only [Bool.false_eq_true, if_false] at hmon
          split at hmon
          · rw [← hC.2]
            simpa using hmon
          · exact absurd hmon (by simp)
        · refine List.any_eq_true.mpr ⟨p, hp, ?_⟩
          simpa using hfrec2

/-- C3 witness: the five-payment gap scenario has pairwise distinct fact
ids; with an empty derived map its issues carry the derived-cadence entry
iff some contributing fact is not explicitly monthly. -/
theorem C3_witness :
    ((c4Facts 30 30 30).map (fun f => f.id)).Nodup ∧
    ∀ i ∈ detectRecurringPaymentGap (c4Facts 30 30 30) (some []),
      (Rationale.monthlyCadenceDerived ∈ i.rationale ↔
        ∃ f ∈ c4Facts 30 30 30, f.id ∈ i.evidenceFactIds ∧ f.recurrence ≠ "monthly") :=
  ⟨by decide, C3_derived_fallback_one_time_only.2.2 (c4Facts 30 30 30) [] (by decide)⟩

/-- C9: `detectScanMode` returns bank exactly when the fraction of facts
with direction inflow/outflow strictly exceeds 80%; a list with exactly
80% known directions yields billing, and so does the empty list. -/
theorem C9_scan_mode_threshold :
    (∀ facts : List FactRecord,
      detectScanMode facts = ScanMode.bank ↔
        (facts ≠ [] ∧ (4 : ℚ)/5 <
          ((facts.filter (fun f =>
            f.direction == "inflow" || f.direction == "outflow")).length : ℚ)
            / (facts.length : ℚ)))
    ∧ detectScanMode [] = ScanMode.billing
    ∧ (∀ facts : List FactRecord,
        5 * (facts.filter (fun f =>
          f.direction == "inflow" || f.direction == "outflow")).length
            = 4 * facts.length →
        detectScanMode facts = ScanMode.billing) := by
  refine ⟨?_, rfl, ?_⟩
  · intro facts
    unfold detectScanMode
    by_cases h0 : facts.length = 0
    · have he : facts = [] := List.length_eq_zero.mp h0
      subst he
      simp
    · rw [if_neg h0]
      have hne : facts ≠ [] := fun h => h0 (by simp [h])
      by_cases hr : (4 : ℚ)/5 <
          ((facts.filter (fun f =>
            f.direction == "inflow" || f.direction == "outflow")).length : ℚ)
            / (facts.length : ℚ)
      · simp only [if_pos hr]
        simp [hne, hr]
      · simp only [if_neg hr]
        simp [hr]
  · intro facts h5
    unfold detectScanMode
    by_cases h0 : facts.length = 0
    · rw [if_pos h0]
    · rw [if_neg h0]
      have hn : (0 : ℚ) < (facts.length : ℚ) := by
        have := Nat.pos_of_ne_zero h0
        exact_mod_cast this
      have hq : (5 : ℚ) * ((facts.filter (fun f =>
          f.direction == "inflow" || f.direction == "outflow")).length : ℚ)
            = 4 * (facts.length : ℚ) := by exact_mod_cast h5
      have hratio : ((facts.filter (fun f =>
          f.direction == "inflow" || f.direction == "outflow")).length : ℚ)
            / (facts.length : ℚ) = 4/5 := by
        field_simp
        linarith
      rw [if_neg (by rw [hratio]; norm_num)]

/-- C9 witness: the third conjunct applied to a concrete five-fact list in
which exactly four facts have a known direction. -/
theorem C9_witness :
    5 * (c9Facts.filter (fun f =>
      f.direction == "inflow" || f.direction == "outflow")).length = 4 * c9Facts.length
    ∧ detectScanMode c9Facts = ScanMode.billing :=
  ⟨by decide, C9_scan_mode_threshold.2.2 c9Facts (by decide)⟩

/-- C1 counterexample: `detectBankDuplicateCharges` emits an issue with a
non-null impact although every fact in its evidence group has a null
currency — contradicting the claim that `impactMin`/`impactMax` are null
unless the contributing facts share a single non-null currency. -/
theorem C1_counterexample :
    c1Facts.map (fun f => f.amountCurrency) = [none, none] ∧
    (detectBankDuplicateCharges c1Facts).map
        (fun i => (i.issueType, i.impactMin, i.impactMax, i.currency))
      = [("duplicate_charge", some 50, some 50, none)] := by decide

/-- C2 counterexample: on `c2Facts` the scan mode is bank and the pruning
stage runs with `allowLowSeverity = false` (the raw candidate list holds 3
non-low issues), yet only one non-low issue survives stage 4 — so the
"exactly when ≥ 3 non-low issues survived stage 4" characterization fails. -/
theorem C2_counterexample :
    detectScanMode c2Facts = ScanMode.bank ∧
    (mergeWithDefaults (bankAdjustedPruneOptions
        (bankRawIssues c2Facts (classifyMonthlyByEntity c2Facts))
        emptyPruneOptions)).allowLowSeverity = false ∧
    ((stage4Survivors (fun _ => 0)
        (bankRawIssues c2Facts (classifyMonthlyByEntity c2Facts))
        (bankAdjustedPruneOptions (bankRawIssues c2Facts (classifyMonthlyByEntity c2Facts))
          emptyPruneOptions)).filter
      (fun i => i.severity != Severity.low)).length < 3 := by decide

/-- C2 (amended): in bank mode, when the caller does not override
`allowLowSeverity`, the pruning stage runs with `allowLowSeverity` forced
to false exactly when the *raw* candidate list produced by the bank
detectors (before any pruning stage) contains at least 3 non-low issues. -/
theorem C2_allow_low_severity_from_raw_count
    (facts : List FactRecord) (userPrune : PartialPruneOptions)
    (h : userPrune.allowLowSeverity = none) :
    (mergeWithDefaults (bankAdjustedPruneOptions
        (bankRawIssues facts (classifyMonthlyByEntity facts)) userPrune)).allowLowSeverity
        = false
      ↔ 3 ≤ ((bankRawIssues facts (classifyMonthlyByEntity facts)).filter
          (fun i => i.severity != Severity.low)).length := by
  unfold bankAdjustedPruneOptions
  by_cases h3 : 3 ≤ ((bankRawIssues facts (classifyMonthlyByEntity facts)).filter
      (fun i => i.severity != Severity.low)).length
  · rw [if_pos h3]
    simp [mergeWithDefaults, h3]
  · rw [if_neg h3]
    simp [mergeWithDefaults, mergePartial, BANK_MODE_PRUNE_OPTIONS, h, h3]

/-- C2 witness: the amended characterization applied to `c2Facts` with no
user override. -/
theorem C2_witness :
    emptyPruneOptions.allowLowSeverity = none ∧
    ((mergeWithDefaults (bankAdjustedPruneOptions
        (bankRawIssues c2Facts (classifyMonthlyByEntity c2Facts))
        emptyPruneOptions)).allowLowSeverity = false
      ↔ 3 ≤ ((bankRawIssues c2Facts (classifyMonthlyByEntity c2Facts)).filter
          (fun i => i.severity != Severity.low)).length) :=
  ⟨rfl, C2_allow_low_severity_from_raw_count c2Facts emptyPruneOptions rfl⟩

/-- C3 counterexample: a fact whose explicit recurrence is `"unknown"`
(unset) is *not* treated as monthly even though its entity's derived
classification says monthly — the fallback fires only for `"one_time"`. -/
theorem C3_counterexample :
    c3Fact.recurrence = "unknown" ∧
    (alistGet c3Derived (getEntityKeyCN c3Fact)).map (fun c => c.isMonthly) = some true ∧
    isMonthlyRecurring c3Fact (some c3Derived) = false := by decide

/-- C5: the code is wrong on the claim's own highlighted case.  With four
explicitly monthly payments of amount 0 the prior-amounts median is 0 and
`detectAmountDrift` divides by it unguarded: the NaN drift fails every
comparison, so an `amount_drift` issue is emitted whose drift percentage is
NaN (severity falls through to low), instead of the branch being skipped. -/
theorem C5_drift_nan_bug :
    (detectAmountDrift c5Facts).map (fun i => (i.issueType, i.severity, i.impactMin)) =
      [("amount_drift", Severity.low, none)] ∧
    ∀ i ∈ detectAmountDrift c5Facts,
      Rationale.decreaseDetected JSNum.nan ∈ i.rationale := by decide

/-- C6 counterexample: canonicalization is not idempotent — a second pass
re-fires the trailing 3–4-digit strip: `"AB 123 456"` canonicalizes to
`"AB 123"`, which canonicalizes further to `"AB"`. -/
theorem C6_counterexample :
    canonicalizeEntity (some "AB 123 456") ≠ none ∧
    canonicalizeEntity (canonicalizeEntity (some "AB 123 456")) ≠
      canonicalizeEntity (some "AB 123 456") := by decide

/-- C6 (amended): `canonicalizeEntity` is not idempotent on all inputs (see
the counterexample); re-canonicalization is stable on merchant-style names
such as the spec's grouping examples — for each of them the canonical
result is a fixed point. -/
theorem C6_idempotent_on_merchant_names :
    canonicalizeEntity (canonicalizeEntity (some "WALMART"))
      = canonicalizeEntity (some "WALMART") ∧
    canonicalizeEntity (canonicalizeEntity (some "WALMART STORE #1234"))
      = canonicalizeEntity (some "WALMART STORE #1234") ∧
    canonicalizeEntity (canonicalizeEntity (some "POS DEBIT WALMART"))
      = canonicalizeEntity (some "POS DEBIT WALMART") ∧
    canonicalizeEntity (canonicalizeEntity (some "CHECKCARD WALMART 5678"))
      = canonicalizeEntity (some "CHECKCARD WALMART 5678") ∧
    canonicalizeEntity (canonicalizeEntity (some "WALMART INC"))
      = canonicalizeEntity (some "WALMART INC") ∧
    canonicalizeEntity (canonicalizeEntity (some "AMAZON"))
      = canonicalizeEntity (some "AMAZON") ∧
    canonicalizeEntity (canonicalizeEntity (some "AMAZON PRIME"))
      = canonicalizeEntity (some "AMAZON PRIME") := by
  have h0 : canonicalizeEntity (some "WALMART") = some "WALMART" := by decide
  have h1 : canonicalizeEntity (some "WALMART STORE #1234") = some "WALMART" := by decide
  have h2 : canonicalizeEntity (some "POS DEBIT WALMART") = some "WALMART" := by decide
  have h3 : canonicalizeEntity (some "CHECKCARD WALMART 5678") = some "WALMART" := by decide
  have h4 : canonicalizeEntity (some "WALMART INC") = some "WALMART" := by decide
  have h5 : canonicalizeEntity (some "AMAZON") = some "AMAZON" := by decide
  have h6 : canonicalizeEntity (some "AMAZON PRIME") = some "AMAZON PRIME" := by decide
  exact ⟨by rw [h0]; exact h0, by rw [h1]; exact h0, by rw [h2]; exact h0,
    by rw [h3]; exact h0, by rw [h4]; exact h0, by rw [h5]; exact h5,
    by rw [h6]; exact h6⟩

/-- C8: the five WALMART-style descriptions all canonicalize to the single
string WALMART, while AMAZON and AMAZON PRIME stay distinct. -/
theorem C8_walmart_grouping :
    canonicalizeEntity (some "WALMART") = some "WALMART" ∧
    canonicalizeEntity (some "WALMART STORE #1234") = some "WALMART" ∧
    canonicalizeEntity (some "POS DEBIT WALMART") = some "WALMART" ∧
    canonicalizeEntity (some "CHECKCARD WALMART 5678") = some "WALMART" ∧
    canonicalizeEntity (some "WALMART INC") = some "WALMART" ∧
    canonicalizeEntity (some "AMAZON") ≠ canonicalizeEntity (some "AMAZON PRIME") := by decide

end ChaosScan
